import Mathlib

set_option maxHeartbeats 1000000
set_option maxRecDepth 4000

/-!
Verification of the label-rendering and printer-protocol encoding pipeline
of `simple_app.py` (reagent label printing).  Python functions are embedded
as Lean definitions; calls into the environment (PIL rasterization, font
files, Python string hashing, the printer transport and the file system)
are parameters of explicit environment structures, so that every theorem
quantifies over the behaviour of those collaborators.
-/

/-- A monochrome bitmap as produced by PIL mode `1`: `pixel x y = 0` means
ink (black), any other value means background (white).  This is the value
handed from the rasterizer to `_image_to_zpl_hex`. -/
structure Bitmap where
  width : Nat
  height : Nat
  pixel : Nat → Nat → Nat

/-- Models `bytes_per_row = (width + 7) // 8` computed in
`_image_to_zpl_hex` (line 224) and `_text_to_zpl_graphic` (line 195). -/
def bytesPerRow (w : Nat) : Nat := (w + 7) / 8

/-- Models the inner `for bit in range(8)` loop of `_image_to_zpl_hex`
(lines 233-245): builds one byte out of 8 horizontally consecutive pixels,
most significant bit = left-most pixel, setting a bit exactly when the
pixel is in range and the PIL pixel value is black (0). -/
def byteValue (img : Bitmap) (y xByte : Nat) : Nat :=
  (List.range 8).foldl
    (fun acc bit =>
      if xByte * 8 + bit < img.width ∧ img.pixel (xByte * 8 + bit) y = 0 then
        acc ||| (1 <<< (7 - bit))
      else acc) 0

/-- Models the row-major byte sequence produced by the nested loops
`for y in range(height): for x_byte in range(bytes_per_row)` of
`_image_to_zpl_hex` (lines 231-248). -/
def zplBytes (img : Bitmap) : List Nat :=
  (List.range img.height).flatMap fun y =>
    (List.range (bytesPerRow img.width)).map fun xByte => byteValue img y xByte

/-- Uppercase hexadecimal digit of `n < 16`, as produced by `f"{b:02X}"`. -/
def hexDigit (n : Nat) : Char :=
  if n < 10 then Char.ofNat (48 + n) else Char.ofNat (55 + n)

/-- The two uppercase hex characters of one byte: `f"{byte_value:02X}"`
(line 248). -/
def byteHexChars (b : Nat) : List Char := [hexDigit (b / 16), hexDigit (b % 16)]

/-- Models `_image_to_zpl_hex` (lines 210-253): the concatenation of the
two-character uppercase-hex encodings of all packed bytes, row-major. -/
def image_to_zpl_hex (img : Bitmap) : String :=
  String.mk ((zplBytes img).flatMap byteHexChars)

/-- Zero padding of a decimal number to width `w`, as produced by the
Python format specifiers `{total_bytes:05d}` and `{bytes_per_row:03d}`. -/
def padNum (w n : Nat) : String :=
  String.mk (List.replicate (w - (toString n).length) '0') ++ toString n

/-- Environment of the ZPL graphic pipeline: whether PIL imported, which
Chinese font path was resolved at startup (`ZPL_CHINESE_FONT_PATH`), the
rasterizer (PIL font loading + `textbbox` + `draw.text`, which may fail
per string, returning `none` on any exception), and Python's built-in
string `hash`. -/
structure ZplEnv where
  imageAvailable : Bool
  fontPath : Option String
  rast : String → Bool → Option Bitmap
  pyHash : String → Nat

/-- Models `_text_to_zpl_graphic` (lines 119-208): `None` when PIL or the
font is unavailable or rasterization of this string fails, otherwise the
`~DGR` graphic-definition command carrying the item name, the total byte
count zero-padded to 5 digits, the bytes-per-row zero-padded to 3 digits,
and the hex payload (line 200). -/
def text_to_zpl_graphic (env : ZplEnv) (text itemName : String) (bold : Bool) :
    Option String :=
  if env.imageAvailable = false then none
  else
    match env.fontPath with
    | none => none
    | some _ =>
      match env.rast text bold with
      | none => none
      | some img =>
        let hex := image_to_zpl_hex img
        if hex = "" then none
        else some ("~DGR:" ++ itemName ++ "," ++
          padNum 5 (bytesPerRow img.width * img.height) ++ "," ++
          padNum 3 (bytesPerRow img.width) ++ "," ++ hex)

/-! ### Decoding the hex payload back into bits (for the round-trip claim) -/

/-- Value of one uppercase hex digit (inverse of `hexDigit`). -/
def hexDigitVal (c : Char) : Nat :=
  if 65 ≤ c.toNat then c.toNat - 55 else c.toNat - 48

/-- Decodes a hex character sequence back into the byte list it encodes. -/
def hexPairsToBytes : List Char → List Nat
  | hi :: lo :: rest => (16 * hexDigitVal hi + hexDigitVal lo) :: hexPairsToBytes rest
  | _ => []

/-- Decodes pixel `(x, y)` out of a ZPL hex payload with `bpr` bytes per
row: bit `7 - x % 8` (most significant bit = left-most pixel) of byte
`y * bpr + x / 8`; result `1` = mark (black), `0` = background. -/
def zplDecodeBit (hex : String) (bpr x y : Nat) : Nat :=
  if Nat.testBit ((hexPairsToBytes hex.data).getD (y * bpr + x / 8) 0) (7 - x % 8)
  then 1 else 0

/-! ### Basic facts about the packer -/

theorem bytesPerRow_pos (w : Nat) (hw : 1 ≤ w) : 1 ≤ bytesPerRow w := by
  unfold bytesPerRow; omega

theorem bytesPerRow_eq_ceil (w : Nat) (hw : 1 ≤ w) :
    bytesPerRow w = ⌈(w : ℚ) / 8⌉₊ := by
  have hn : 1 ≤ bytesPerRow w := bytesPerRow_pos w hw
  have hub : (w : ℚ) / 8 ≤ (bytesPerRow w : ℚ) := by
    rw [div_le_iff₀ (by norm_num : (0:ℚ) < 8)]
    have h : w ≤ bytesPerRow w * 8 := by unfold bytesPerRow at *; omega
    exact_mod_cast h
  have hlb : ((bytesPerRow w - 1 : ℕ) : ℚ) < (w : ℚ) / 8 := by
    rw [lt_div_iff₀ (by norm_num : (0:ℚ) < 8)]
    have h : (bytesPerRow w - 1) * 8 < w := by unfold bytesPerRow at *; omega
    exact_mod_cast h
  symm
  rw [Nat.ceil_eq_iff (by omega)]
  exact ⟨hlb, hub⟩

theorem range_eight : List.range 8 = [0, 1, 2, 3, 4, 5, 6, 7] := rfl

theorem ite_or_step (C : Prop) [Decidable C] (acc v : Nat) :
    (if C then acc ||| v else acc) = acc ||| (if C then v else 0) := by
  by_cases h : C <;> simp [h]

theorem testBit_orChain (c : Fin 8 → Bool) (b : Fin 8) :
    Nat.testBit
      ((((((((if c 0 = true then 1 <<< (7 - 0) else 0) |||
        (if c 1 = true then 1 <<< (7 - 1) else 0)) |||
        (if c 2 = true then 1 <<< (7 - 2) else 0)) |||
        (if c 3 = true then 1 <<< (7 - 3) else 0)) |||
        (if c 4 = true then 1 <<< (7 - 4) else 0)) |||
        (if c 5 = true then 1 <<< (7 - 5) else 0)) |||
        (if c 6 = true then 1 <<< (7 - 6) else 0)) |||
        (if c 7 = true then 1 <<< (7 - 7) else 0))
      (7 - (b : Nat)) = c b := by revert c b; decide

theorem orChain_lt_256 (c : Fin 8 → Bool) :
    ((((((((if c 0 = true then 1 <<< (7 - 0) else 0) |||
      (if c 1 = true then 1 <<< (7 - 1) else 0)) |||
      (if c 2 = true then 1 <<< (7 - 2) else 0)) |||
      (if c 3 = true then 1 <<< (7 - 3) else 0)) |||
      (if c 4 = true then 1 <<< (7 - 4) else 0)) |||
      (if c 5 = true then 1 <<< (7 - 5) else 0)) |||
      (if c 6 = true then 1 <<< (7 - 6) else 0)) |||
      (if c 7 = true then 1 <<< (7 - 7) else 0)) < 256 := by revert c; decide

theorem testBit_byteValue (img : Bitmap) (y xb b : Nat) (hb : b < 8) :
    Nat.testBit (byteValue img y xb) (7 - b) =
      decide (xb * 8 + b < img.width ∧ img.pixel (xb * 8 + b) y = 0) := by
  have h := testBit_orChain
    (fun i => decide (xb * 8 + (i : Nat) < img.width ∧
      img.pixel (xb * 8 + (i : Nat)) y = 0)) ⟨b, hb⟩
  simp only [decide_eq_true_eq] at h
  simp only [byteValue, range_eight, List.foldl_cons, List.foldl_nil,
    ite_or_step, Nat.zero_or]
  norm_num at h ⊢
  exact h

theorem byteValue_lt (img : Bitmap) (y xb : Nat) : byteValue img y xb < 256 := by
  have h := orChain_lt_256
    (fun i => decide (xb * 8 + (i : Nat) < img.width ∧
      img.pixel (xb * 8 + (i : Nat)) y = 0))
  simp only [decide_eq_true_eq] at h
  simp only [byteValue, range_eight, List.foldl_cons, List.foldl_nil,
    ite_or_step, Nat.zero_or]
  norm_num at h ⊢
  exact h

theorem hexDigitVal_hexDigit (n : Nat) (h : n < 16) :
    hexDigitVal (hexDigit n) = n := by
  interval_cases n <;> decide

theorem hexDigit_mem_digits (n : Nat) (h : n < 16) :
    hexDigit n ∈ "0123456789ABCDEF".data := by
  interval_cases n <;> decide

theorem hexPairsToBytes_encode (bs : List Nat) (h : ∀ b ∈ bs, b < 256) :
    hexPairsToBytes (bs.flatMap byteHexChars) = bs := by
  induction bs with
  | nil => rfl
  | cons b rest ih =>
    have hb : b < 256 := h b (by simp)
    have hstep : (b :: rest).flatMap byteHexChars
        = hexDigit (b / 16) :: hexDigit (b % 16) :: rest.flatMap byteHexChars := by
      simp [byteHexChars]
    rw [hstep]
    show (16 * hexDigitVal (hexDigit (b / 16)) + hexDigitVal (hexDigit (b % 16)))
        :: hexPairsToBytes (rest.flatMap byteHexChars) = b :: rest
    rw [hexDigitVal_hexDigit _ (by omega),
      hexDigitVal_hexDigit _ (Nat.mod_lt _ (by norm_num)),
      ih (fun x hx => h x (by simp [hx]))]
    congr 1
    omega

theorem flatMap_byteHexChars_length (l : List Nat) :
    (l.flatMap byteHexChars).length = 2 * l.length := by
  induction l with
  | nil => rfl
  | cons b rest ih => simp [byteHexChars, ih]; ring

theorem flatMap_range_map_length {α : Type} (g : Nat → Nat → α) (m n : Nat) :
    ((List.range m).flatMap fun y => (List.range n).map (g y)).length = m * n := by
  induction m with
  | zero => simp
  | succ k ih =>
    rw [List.range_succ, List.flatMap_append]
    simp only [List.length_append, ih, List.flatMap_cons, List.flatMap_nil,
      List.append_nil, List.length_map, List.length_range]
    ring

theorem flatMap_range_map_getElem {α : Type} (g : Nat → Nat → α) (m n y j : Nat)
    (hy : y < m) (hj : j < n) :
    ((List.range m).flatMap fun z => (List.range n).map (g z))[y * n + j]? =
      some (g y j) := by
  induction m with
  | zero => omega
  | succ k ih =>
    rw [List.range_succ, List.flatMap_append, List.getElem?_append,
      flatMap_range_map_length]
    by_cases hk : y < k
    · have hlt : y * n + j < k * n := by
        have h1 : (y + 1) * n ≤ k * n := Nat.mul_le_mul_right n hk
        have h2 : (y + 1) * n = y * n + n := by ring
        omega
      rw [if_pos hlt]
      exact ih hk
    · have hyk : y = k := by omega
      subst hyk
      have hge : ¬ (y * n + j < y * n) := by omega
      rw [if_neg hge]
      simp only [List.flatMap_cons, List.flatMap_nil, List.append_nil]
      rw [show y * n + j - y * n = j by omega]
      rw [List.getElem?_map, List.getElem?_range hj]
      rfl

theorem zplBytes_getD (img : Bitmap) (y j : Nat) (hy : y < img.height)
    (hj : j < bytesPerRow img.width) :
    (zplBytes img).getD (y * bytesPerRow img.width + j) 0 = byteValue img y j := by
  unfold zplBytes
  rw [List.getD_eq_getElem?_getD, flatMap_range_map_getElem _ _ _ _ _ hy hj]
  rfl

theorem zplBytes_mem_lt (img : Bitmap) (b : Nat) (hb : b ∈ zplBytes img) :
    b < 256 := by
  unfold zplBytes at hb
  simp only [List.mem_flatMap, List.mem_map, List.mem_range] at hb
  obtain ⟨y, -, xb, -, rfl⟩ := hb
  exact byteValue_lt img y xb

/-- C2: for every bitmap with width ≥ 1 and height ≥ 1 the encoder computes
`bytesPerRow = ceil(width / 8)` and `totalBytes = bytesPerRow * height`, the
hex payload has exactly `2 * totalBytes` uppercase hexadecimal characters,
and the emitted `~DGR` directive carries the name token, the total byte
count zero-padded to 5 digits and the bytes-per-row zero-padded to 3
digits, followed by the payload. -/
theorem zpl_encoder_geometry_and_directive (env : ZplEnv) (text item : String)
    (bold : Bool) (img : Bitmap) (fp : String)
    (hA : env.imageAvailable = true) (hF : env.fontPath = some fp)
    (hR : env.rast text bold = some img)
    (hw : 1 ≤ img.width) (hh : 1 ≤ img.height) :
    bytesPerRow img.width = ⌈(img.width : ℚ) / 8⌉₊ ∧
    (image_to_zpl_hex img).length = 2 * (bytesPerRow img.width * img.height) ∧
    (∀ c ∈ (image_to_zpl_hex img).data, c ∈ "0123456789ABCDEF".data) ∧
    text_to_zpl_graphic env text item bold =
      some ("~DGR:" ++ item ++ "," ++ padNum 5 (bytesPerRow img.width * img.height)
        ++ "," ++ padNum 3 (bytesPerRow img.width) ++ "," ++ image_to_zpl_hex img) := by
  have hlen : (image_to_zpl_hex img).length
      = 2 * (bytesPerRow img.width * img.height) := by
    show ((zplBytes img).flatMap byteHexChars).length = _
    rw [flatMap_byteHexChars_length]
    unfold zplBytes
    rw [flatMap_range_map_length]
    ring
  have hchars : ∀ c ∈ (image_to_zpl_hex img).data, c ∈ "0123456789ABCDEF".data := by
    intro c hc
    have hc' : c ∈ (zplBytes img).flatMap byteHexChars := hc
    simp only [List.mem_flatMap] at hc'
    obtain ⟨b, hb, hcb⟩ := hc'
    have hb256 : b < 256 := zplBytes_mem_lt img b hb
    simp only [byteHexChars, List.mem_cons, List.not_mem_nil, or_false] at hcb
    rcases hcb with rfl | rfl
    · exact hexDigit_mem_digits _ (by omega)
    · exact hexDigit_mem_digits _ (Nat.mod_lt _ (by norm_num))
  have hbpr : 1 ≤ bytesPerRow img.width := bytesPerRow_pos _ hw
  have hne : ¬ (image_to_zpl_hex img = "") := by
    intro heq
    rw [heq] at hlen
    have : (2 : Nat) * (bytesPerRow img.width * img.height) = 0 := by
      simpa using hlen.symm
    have : 1 ≤ bytesPerRow img.width * img.height :=
      Nat.one_le_iff_ne_zero.mpr (Nat.mul_ne_zero (by omega) (by omega))
    omega
  refine ⟨bytesPerRow_eq_ceil _ hw, hlen, hchars, ?_⟩
  unfold text_to_zpl_graphic
  rw [hA, hF, hR]
  simp only [Bool.true_eq_false, if_false, if_neg hne]

def bitmapW : Bitmap := ⟨1, 1, fun _ _ => 0⟩

def envW : ZplEnv := ⟨true, some "C:/Windows/Fonts/msjh.ttc",
  fun _ _ => some bitmapW, fun _ => 0⟩

theorem zpl_encoder_geometry_and_directive_witness :
    envW.rast "GOT" false = some bitmapW ∧
    (image_to_zpl_hex bitmapW).length =
      2 * (bytesPerRow bitmapW.width * bitmapW.height) := by
  have h := zpl_encoder_geometry_and_directive envW "GOT" "ITEM_X" false bitmapW
    "C:/Windows/Fonts/msjh.ttc" rfl rfl rfl (by decide) (by decide)
  exact ⟨rfl, h.2.1⟩

/-- C3: the packer maps each row top-to-bottom into bytes whose most
significant bit is the left-most pixel of its 8-pixel group, maps
rasterizer ink (pixel value 0) to protocol bit 1 and background to bit 0,
treats out-of-range pixels of a partial trailing byte as background, and
decoding the produced hex payload reproduces the original ink map. -/
theorem zpl_pixel_roundtrip (img : Bitmap) (x y : Nat) (hy : y < img.height) :
    (x < img.width →
      zplDecodeBit (image_to_zpl_hex img) (bytesPerRow img.width) x y =
        if img.pixel x y = 0 then 1 else 0) ∧
    (img.width ≤ x → x < 8 * bytesPerRow img.width →
      zplDecodeBit (image_to_zpl_hex img) (bytesPerRow img.width) x y = 0) := by
  have hdecode : hexPairsToBytes (image_to_zpl_hex img).data = zplBytes img := by
    show hexPairsToBytes ((zplBytes img).flatMap byteHexChars) = _
    exact hexPairsToBytes_encode _ (zplBytes_mem_lt img)
  have hmod : x % 8 < 8 := Nat.mod_lt _ (by norm_num)
  have hxeq : x / 8 * 8 + x % 8 = x := by omega
  constructor
  · intro hx
    have hj : x / 8 < bytesPerRow img.width := by unfold bytesPerRow; omega
    unfold zplDecodeBit
    rw [hdecode, zplBytes_getD img y (x / 8) hy hj,
      testBit_byteValue img y (x / 8) (x % 8) hmod, hxeq]
    simp only [decide_eq_true_eq]
    by_cases hp : img.pixel x y = 0
    · simp [hx, hp]
    · simp [hp]
  · intro hx1 hx2
    have hj : x / 8 < bytesPerRow img.width := by omega
    unfold zplDecodeBit
    rw [hdecode, zplBytes_getD img y (x / 8) hy hj,
      testBit_byteValue img y (x / 8) (x % 8) hmod, hxeq]
    simp only [decide_eq_true_eq]
    simp [show ¬ (x < img.width) by omega]

def bitmapMixed : Bitmap := ⟨3, 2, fun x y => if x = 1 ∧ y = 0 then 0 else 1⟩

theorem zpl_pixel_roundtrip_witness :
    zplDecodeBit (image_to_zpl_hex bitmapMixed) (bytesPerRow bitmapMixed.width) 1 0 = 1 ∧
    zplDecodeBit (image_to_zpl_hex bitmapMixed) (bytesPerRow bitmapMixed.width) 2 1 = 0 ∧
    zplDecodeBit (image_to_zpl_hex bitmapMixed) (bytesPerRow bitmapMixed.width) 5 0 = 0 := by
  refine ⟨?_, ?_, ?_⟩
  · have h := (zpl_pixel_roundtrip bitmapMixed 1 0 (by decide)).1 (by decide)
    rw [h]; decide
  · have h := (zpl_pixel_roundtrip bitmapMixed 2 1 (by decide)).1 (by decide)
    rw [h]; decide
  · exact (zpl_pixel_roundtrip bitmapMixed 5 0 (by decide)).2 (by decide) (by decide)

/-! ### The ZPL label generator (`generate_zpl_labels`) -/

/-- One line of output appended to the ZPL string of one label block.
`gRef` carries, besides the referenced graphic name, the literal string
that graphic rasterizes (known at every emission site in the source);
`renderLine` ignores that annotation. -/
inductive ZLine where
  | labelStart : ZLine
  | printWidth : Nat → ZLine
  | labelLength : Nat → ZLine
  | gBox : Nat → Nat → Nat → Nat → Nat → ZLine
  | graphicDef : String → ZLine
  | gRef : Nat → Nat → String → String → ZLine
  | fontText : Nat → Nat → String → String → ZLine
  | labelEnd : ZLine
deriving DecidableEq

/-- The exact ZPL text of one emitted line, as concatenated into the block
string by `generate_zpl_labels`. -/
def renderLine : ZLine → String
  | ZLine.labelStart => "^XA\n"
  | ZLine.printWidth n => "^PW" ++ toString n ++ "\n"
  | ZLine.labelLength n => "^LL" ++ toString n ++ "\n"
  | ZLine.gBox x y w h t => "^FO" ++ toString x ++ "," ++ toString y ++ "^GB"
      ++ toString w ++ "," ++ toString h ++ "," ++ toString t ++ "^FS\n"
  | ZLine.graphicDef g => g ++ "\n"
  | ZLine.gRef x y nm _ => "^FO" ++ toString x ++ "," ++ toString y ++ "^XG"
      ++ nm ++ "^FS\n"
  | ZLine.fontText x y f s => "^FO" ++ toString x ++ "," ++ toString y ++ "^"
      ++ f ++ ",22,22^FD" ++ s ++ "^FS\n"
  | ZLine.labelEnd => "^XZ\n"

/-- The record fields consumed by the label generators: `reagent_name`,
`reagent_batch_number`, the `%Y/%m/%d`-formatted expiry and entry dates,
and the stored quantity. -/
structure Entry where
  reagent_name : String
  reagent_batch_number : String
  expiry_str : String
  entry_str : String
  quantity : Nat

/-- The fixed caption table of `_generate_fixed_graphics` (lines 270-281),
in insertion order. -/
def fixedTexts : List (String × String) :=
  [("IN", "【入庫】"), ("OUT", "【出庫】"), ("REAGENT_NAME", "試劑名稱:"),
   ("BATCH", "試劑批號:"), ("EXPIRY", "穩定效期:"), ("ENTRY_DATE", "入庫日期:"),
   ("PERSON", "人員:"), ("CHECKOUT_DATE", "出庫日期:"),
   ("NEW_BATCH", ">>新批號<<"), ("QUALIFIED", "(允收合格)")]

/-- Models `_generate_fixed_graphics` (lines 261-295): the process-wide
`ZPL_FIXED_GRAPHICS` dict, keeping (in table order) every caption whose
rasterization succeeded, keyed by its caption identifier; `NEW_BATCH` is
rendered bold. -/
def generateFixedGraphics (env : ZplEnv) : List (String × String) :=
  fixedTexts.filterMap fun kt =>
    (text_to_zpl_graphic env kt.2 ("ITEM_" ++ kt.1) (kt.1 == "NEW_BATCH")).map
      fun g => (kt.1, g)

/-- Dynamic item name for the reagent name: hash-suffixed (line 963). -/
def reagentItemName (env : ZplEnv) (s : String) : String :=
  "ITEM_REAGENT_NAME_DYN_" ++ toString (env.pyHash s % 10000)

/-- Dynamic item name for the batch number (line 971). -/
def batchItemName (env : ZplEnv) (s : String) : String :=
  "ITEM_BATCH_DYN_" ++ toString (env.pyHash s % 10000)

/-- Dynamic item name for the expiry date (line 979). -/
def expiryItemName (env : ZplEnv) (s : String) : String :=
  "ITEM_EXPIRY_DYN_" ++ toString (env.pyHash s % 10000)

/-- Dynamic item name for the entry date (line 986). -/
def entryItemName (env : ZplEnv) (s : String) : String :=
  "ITEM_ENTRY_DYN_" ++ toString (env.pyHash s % 10000)

/-- Dynamic caption graphic produced only when the fixed `REAGENT_NAME`
caption is missing (lines 954-959). -/
def dynLabelGraphic (env : ZplEnv) (fixed : List (String × String))
    (entry : Entry) : Option String :=
  if entry.reagent_name ≠ "" ∧ (fixed.lookup "REAGENT_NAME") = none then
    text_to_zpl_graphic env "試劑名稱:" "ITEM_REAGENT_NAME_LABEL_DYN" false
  else none

/-- Dynamic reagent-name graphic (lines 961-967). -/
def dynNameGraphic (env : ZplEnv) (entry : Entry) : Option String :=
  if entry.reagent_name ≠ "" then
    text_to_zpl_graphic env entry.reagent_name
      (reagentItemName env entry.reagent_name) false
  else none

/-- Dynamic batch-number graphic (lines 969-975). -/
def dynBatchGraphic (env : ZplEnv) (entry : Entry) : Option String :=
  if entry.reagent_batch_number ≠ "" then
    text_to_zpl_graphic env entry.reagent_batch_number
      (batchItemName env entry.reagent_batch_number) false
  else none

/-- Dynamic expiry-date graphic (lines 977-983). -/
def dynExpiryGraphic (env : ZplEnv) (entry : Entry) : Option String :=
  if entry.expiry_str ≠ "" then
    text_to_zpl_graphic env entry.expiry_str
      (expiryItemName env entry.expiry_str) false
  else none

/-- Dynamic entry-date graphic (lines 985-990). -/
def dynEntryGraphic (env : ZplEnv) (entry : Entry) : Option String :=
  if entry.entry_str ≠ "" then
    text_to_zpl_graphic env entry.entry_str
      (entryItemName env entry.entry_str) false
  else none

/-- The graphic-definition commands of the per-render dynamic graphics, in
the insertion order of the `dynamic_graphics` dict. -/
def dynGraphicDefs (env : ZplEnv) (fixed : List (String × String))
    (entry : Entry) : List String :=
  (dynLabelGraphic env fixed entry).toList ++ (dynNameGraphic env entry).toList
  ++ (dynBatchGraphic env entry).toList ++ (dynExpiryGraphic env entry).toList
  ++ (dynEntryGraphic env entry).toList

/-- Borders of one label (lines 1002-1021): double border (thick outer,
thin inner) on a first new-batch label, single border otherwise. -/
def borderSection (first : Bool) : List ZLine :=
  if first then [ZLine.gBox 5 5 384 266 6, ZLine.gBox 10 10 374 256 2]
  else [ZLine.gBox 5 5 384 266 2]

/-- The `【入庫】` title row (lines 1034-1039). -/
def titleSection (fixed : List (String × String)) : List ZLine :=
  if (fixed.lookup "IN").isSome then [ZLine.gRef 20 25 "ITEM_IN" "【入庫】"]
  else [ZLine.fontText 20 25 "A0N" "【入庫】"]

/-- The reagent-name row (lines 1042-1072). -/
def reagentSection (env : ZplEnv) (fixed : List (String × String))
    (entry : Entry) : List ZLine :=
  if (fixed.lookup "REAGENT_NAME").isSome then
    ZLine.gRef 20 55 "ITEM_REAGENT_NAME" "試劑名稱:" ::
      (if (dynNameGraphic env entry).isSome then
        [ZLine.gRef 122 55 (reagentItemName env entry.reagent_name)
          entry.reagent_name]
      else [ZLine.fontText 122 55 "A0N" entry.reagent_name])
  else
    if (dynNameGraphic env entry).isSome then
      (if (dynLabelGraphic env fixed entry).isSome then
        [ZLine.gRef 20 55 "ITEM_REAGENT_NAME_LABEL_DYN" "試劑名稱:",
         ZLine.gRef 122 55 (reagentItemName env entry.reagent_name)
           entry.reagent_name]
      else
        [ZLine.fontText 20 55 "A0N" "試劑名稱:",
         ZLine.gRef 122 55 (reagentItemName env entry.reagent_name)
           entry.reagent_name])
    else [ZLine.fontText 20 55 "A0N" ("試劑名稱:" ++ entry.reagent_name)]

/-- The batch row with the new-batch / qualified marker (lines 1075-1117). -/
def batchSection (env : ZplEnv) (fixed : List (String × String))
    (entry : Entry) (first : Bool) : List ZLine :=
  if (fixed.lookup "BATCH").isSome then
    (ZLine.gRef 20 85 "ITEM_BATCH" "試劑批號:" ::
      (if (dynBatchGraphic env entry).isSome then
        [ZLine.gRef 122 85 (batchItemName env entry.reagent_batch_number)
          entry.reagent_batch_number]
      else [ZLine.fontText 122 85 "A0N" entry.reagent_batch_number])) ++
    (if first then
      (if (fixed.lookup "NEW_BATCH").isSome then
        [ZLine.gRef 222 85 "ITEM_NEW_BATCH" ">>新批號<<"]
      else [ZLine.fontText 222 85 "A0B" ">>新批號<<"])
    else
      (if (fixed.lookup "QUALIFIED").isSome then
        [ZLine.gRef 222 85 "ITEM_QUALIFIED" "(允收合格)"]
      else [ZLine.fontText 222 85 "A0N" "(允收合格)"]))
  else
    if first then
      (if (dynBatchGraphic env entry).isSome then
        [ZLine.fontText 20 85 "A0N" "試劑批號:",
         ZLine.gRef 122 85 (batchItemName env entry.reagent_batch_number)
           entry.reagent_batch_number,
         ZLine.fontText 222 85 "A0B" ">>新批號<<"]
      else
        [ZLine.fontText 20 85 "A0N"
           ("試劑批號:" ++ entry.reagent_batch_number ++ " "),
         ZLine.fontText (122 + entry.reagent_batch_number.length * 11) 85 "A0B"
           ">>新批號<<"])
    else
      (if (dynBatchGraphic env entry).isSome then
        [ZLine.gRef 20 85 (batchItemName env entry.reagent_batch_number)
          entry.reagent_batch_number]
      else
        [ZLine.fontText 20 85 "A0N"
          ("試劑批號:" ++ entry.reagent_batch_number ++ " (允收合格)")])

/-- The expiry row (lines 1120-1135). -/
def expirySection (env : ZplEnv) (fixed : List (String × String))
    (entry : Entry) : List ZLine :=
  if (fixed.lookup "EXPIRY").isSome then
    ZLine.gRef 20 115 "ITEM_EXPIRY" "穩定效期:" ::
      (if (dynExpiryGraphic env entry).isSome then
        [ZLine.gRef 122 115 (expiryItemName env entry.expiry_str)
          entry.expiry_str]
      else [ZLine.fontText 122 115 "A0N" entry.expiry_str])
  else
    if (dynExpiryGraphic env entry).isSome then
      [ZLine.fontText 20 115 "A0N" "穩定效期:",
       ZLine.gRef 122 115 (expiryItemName env entry.expiry_str) entry.expiry_str]
    else [ZLine.fontText 20 115 "A0N" ("穩定效期:" ++ entry.expiry_str)]

/-- The entry-date row (lines 1138-1153). -/
def entrySection (env : ZplEnv) (fixed : List (String × String))
    (entry : Entry) : List ZLine :=
  if (fixed.lookup "ENTRY_DATE").isSome then
    ZLine.gRef 20 145 "ITEM_ENTRY_DATE" "入庫日期:" ::
      (if (dynEntryGraphic env entry).isSome then
        [ZLine.gRef 122 145 (entryItemName env entry.entry_str) entry.entry_str]
      else [ZLine.fontText 122 145 "A0N" entry.entry_str])
  else
    if (dynEntryGraphic env entry).isSome then
      [ZLine.fontText 20 145 "A0N" "入庫日期:",
       ZLine.gRef 122 145 (entryItemName env entry.entry_str) entry.entry_str]
    else [ZLine.fontText 20 145 "A0N" ("入庫日期:" ++ entry.entry_str)]

/-- The `【出庫】` title row (lines 1156-1160). -/
def outSection (fixed : List (String × String)) : List ZLine :=
  if (fixed.lookup "OUT").isSome then [ZLine.gRef 20 175 "ITEM_OUT" "【出庫】"]
  else [ZLine.fontText 20 175 "A0N" "【出庫】"]

/-- The person / checkout-date row (lines 1163-1172). -/
def personSection (fixed : List (String × String)) : List ZLine :=
  (if (fixed.lookup "PERSON").isSome then [ZLine.gRef 20 205 "ITEM_PERSON" "人員:"]
   else [ZLine.fontText 20 205 "A0N" "人員"]) ++
  (if (fixed.lookup "CHECKOUT_DATE").isSome then
    [ZLine.gRef 190 205 "ITEM_CHECKOUT_DATE" "出庫日期:"]
   else [ZLine.fontText 190 205 "A0N" "出庫日期"])

/-- One self-contained label command block: the body of the
`for i in range(quantity)` loop of `generate_zpl_labels` (lines 992-1176). -/
def mkLabel (env : ZplEnv) (fixed : List (String × String)) (entry : Entry)
    (first : Bool) : List ZLine :=
  [ZLine.labelStart, ZLine.printWidth 394, ZLine.labelLength 276] ++
  borderSection first ++
  fixed.map (fun kt => ZLine.graphicDef kt.2) ++
  (dynGraphicDefs env fixed entry).map ZLine.graphicDef ++
  titleSection fixed ++
  reagentSection env fixed entry ++
  batchSection env fixed entry first ++
  expirySection env fixed entry ++
  entrySection env fixed entry ++
  outSection fixed ++
  personSection fixed ++
  [ZLine.labelEnd]

/-- Models `generate_zpl_labels` (lines 926-1178): one command block per
copy; `quantity = none` defaults to `entry.quantity` (lines 933-934); only
copy index 0 of a new-batch render is the "first label" (line 1000). -/
def generate_zpl_labels (env : ZplEnv) (fixed : List (String × String))
    (entry : Entry) (quantity : Option Nat) (is_new_batch : Bool) :
    List (List ZLine) :=
  (List.range (quantity.getD entry.quantity)).map fun i =>
    mkLabel env fixed entry (is_new_batch && i == 0)

/-- Sequential concatenation of strings (used for block/file rendering). -/
def strConcat : List String → String
  | [] => ""
  | s :: r => s ++ strConcat r

/-- The ZPL string of one block: concatenation of its lines. -/
def renderBlock (b : List ZLine) : String := strConcat (b.map renderLine)

/-- Does a line carry the bold new-batch marker (the fixed
`ITEM_NEW_BATCH` graphic or the bold `^A0B` fallback text)? -/
def isNewBatchMarkerLine : ZLine → Bool
  | ZLine.gRef _ _ nm _ => nm == "ITEM_NEW_BATCH"
  | ZLine.fontText _ _ f s => f == "A0B" && s == ">>新批號<<"
  | _ => false

def hasNewBatchMarker (b : List ZLine) : Bool := b.any isNewBatchMarkerLine

/-- Does a line carry the qualified marker for batch value `bn` (the fixed
`ITEM_QUALIFIED` graphic, the `(允收合格)` fallback text, or the combined
batch fallback text ending in the marker)? -/
def isQualifiedMarkerLine (bn : String) : ZLine → Bool
  | ZLine.gRef _ _ nm _ => nm == "ITEM_QUALIFIED"
  | ZLine.fontText _ _ _ s =>
      s == "(允收合格)" || s == ("試劑批號:" ++ bn ++ " (允收合格)")
  | _ => false

def hasQualifiedMarker (bn : String) (b : List ZLine) : Bool :=
  b.any (isQualifiedMarkerLine bn)

def isBorderLine : ZLine → Bool
  | ZLine.gBox _ _ _ _ _ => true
  | _ => false

/-- Number of `^GB` border-box directives in a block. -/
def borderCount (b : List ZLine) : Nat := b.countP isBorderLine

/-- The literal text content of a block: payloads of native-font text
lines plus the source strings of referenced graphics. -/
def lineTexts : ZLine → List String
  | ZLine.fontText _ _ _ s => [s]
  | ZLine.gRef _ _ _ src => [src]
  | _ => []

def blockTexts (b : List ZLine) : List String := b.flatMap lineTexts

/-- The block renders literal text `t`, either as (part of) a native-font
string or as (part of) the source string of a referenced graphic. -/
def blockMentions (b : List ZLine) (t : String) : Prop :=
  ∃ s ∈ blockTexts b, t.data <:+: s.data

/-- C10: quantity resolution of `generate_zpl_labels`: an omitted quantity
defaults to `entry.quantity` command blocks, an explicitly supplied `n`
yields exactly `n` blocks, and `n = 0` yields the empty list. -/
theorem zpl_quantity_resolution (env : ZplEnv) (fixed : List (String × String))
    (entry : Entry) (inb : Bool) :
    (generate_zpl_labels env fixed entry none inb).length = entry.quantity ∧
    (∀ n : Nat, (generate_zpl_labels env fixed entry (some n) inb).length = n) ∧
    generate_zpl_labels env fixed entry (some 0) inb = [] := by
  refine ⟨?_, fun n => ?_, ?_⟩ <;> simp [generate_zpl_labels]

/-! ### String inequality helpers -/

theorem str_ne_of_length_lt (a b t : String) (h : a.length < b.length) :
    a ≠ b ++ t := by
  intro heq
  have hl : a.length = (b ++ t).length := by rw [heq]
  rw [String.length_append] at hl
  omega

theorem str_ne_of_data_getElem (a b t : String) (i : Nat)
    (hi : i < b.data.length) (h : a.data[i]? ≠ b.data[i]?) : a ≠ b ++ t := by
  intro heq
  apply h
  rw [heq, String.data_append, List.getElem?_append, if_pos hi]

theorem str_ne_app_app (a b s t : String) (i : Nat) (ha : i < a.data.length)
    (hb : i < b.data.length) (h : a.data[i]? ≠ b.data[i]?) : a ++ s ≠ b ++ t := by
  intro heq
  apply h
  have h1 : (a ++ s).data[i]? = a.data[i]? := by
    rw [String.data_append, List.getElem?_append, if_pos ha]
  have h2 : (b ++ t).data[i]? = b.data[i]? := by
    rw [String.data_append, List.getElem?_append, if_pos hb]
  rw [← h1, ← h2, heq]

/-! ### Uniqueness of graphic name tokens (C6) -/

/-- Names of the graphic definitions emitted inside every copy block of
one render call: the fixed graphics present in `ZPL_FIXED_GRAPHICS`, then
the dynamic graphics present in `dynamic_graphics`, in emission order. -/
def renderGraphicNames (env : ZplEnv) (entry : Entry) : List String :=
  (generateFixedGraphics env).map (fun kt => "ITEM_" ++ kt.1) ++
  ((if (dynLabelGraphic env (generateFixedGraphics env) entry).isSome then
      ["ITEM_REAGENT_NAME_LABEL_DYN"] else []) ++
   ((if (dynNameGraphic env entry).isSome then
      [reagentItemName env entry.reagent_name] else []) ++
    ((if (dynBatchGraphic env entry).isSome then
      [batchItemName env entry.reagent_batch_number] else []) ++
     ((if (dynExpiryGraphic env entry).isSome then
      [expiryItemName env entry.expiry_str] else []) ++
      (if (dynEntryGraphic env entry).isSome then
      [entryItemName env entry.entry_str] else [])))))

/-- All graphic name tokens the generator can ever use in one call, for
arbitrary hash suffixes. -/
def allGraphicNames (h1 h2 h3 h4 : Nat) : List String :=
  (fixedTexts.map fun kt => "ITEM_" ++ kt.1) ++
  (["ITEM_REAGENT_NAME_LABEL_DYN"] ++
   (["ITEM_REAGENT_NAME_DYN_" ++ toString h1] ++
    (["ITEM_BATCH_DYN_" ++ toString h2] ++
     (["ITEM_EXPIRY_DYN_" ++ toString h3] ++
      ["ITEM_ENTRY_DYN_" ++ toString h4]))))

theorem map_filterMap_sublist {α β γ : Type} (l : List α) (h : α → Option β)
    (f : β → γ) (g : α → γ) (H : ∀ x v, h x = some v → f v = g x) :
    List.Sublist ((l.filterMap h).map f) (l.map g) := by
  induction l with
  | nil => simp
  | cons a rest ih =>
    rw [List.filterMap_cons, List.map_cons]
    cases hha : h a with
    | none => exact ih.cons _
    | some v => rw [List.map_cons, H a v hha]; exact ih.cons₂ _

theorem ite_singleton_sublist {α : Type} (c : Prop) [Decidable c] (x : α) :
    List.Sublist (if c then [x] else []) [x] := by
  split
  · exact List.Sublist.refl _
  · exact List.nil_sublist _

theorem allGraphicNames_pairwise (h1 h2 h3 h4 : Nat) :
    (allGraphicNames h1 h2 h3 h4).Pairwise (· ≠ ·) := by
  unfold allGraphicNames
  rw [List.pairwise_append]
  refine ⟨by decide, ?_, ?_⟩
  · refine List.Pairwise.cons ?_ (List.Pairwise.cons ?_ (List.Pairwise.cons ?_
      (List.Pairwise.cons ?_ (List.pairwise_singleton _ _))))
    · intro b hb
      simp at hb
      rcases hb with rfl | rfl | rfl | rfl
      · exact str_ne_of_data_getElem _ _ _ 18 (by decide) (by decide)
      · exact str_ne_of_data_getElem _ _ _ 5 (by decide) (by decide)
      · exact str_ne_of_data_getElem _ _ _ 5 (by decide) (by decide)
      · exact str_ne_of_data_getElem _ _ _ 5 (by decide) (by decide)
    · intro b hb
      simp at hb
      rcases hb with rfl | rfl | rfl
      · exact str_ne_app_app _ _ _ _ 5 (by decide) (by decide) (by decide)
      · exact str_ne_app_app _ _ _ _ 5 (by decide) (by decide) (by decide)
      · exact str_ne_app_app _ _ _ _ 5 (by decide) (by decide) (by decide)
    · intro b hb
      simp at hb
      rcases hb with rfl | rfl
      · exact str_ne_app_app _ _ _ _ 5 (by decide) (by decide) (by decide)
      · exact str_ne_app_app _ _ _ _ 5 (by decide) (by decide) (by decide)
    · intro b hb
      simp at hb
      subst hb
      exact str_ne_app_app _ _ _ _ 6 (by decide) (by decide) (by decide)
  · intro a ha b hb
    simp [fixedTexts] at ha
    simp at hb
    rcases hb with rfl | rfl | rfl | rfl | rfl <;>
      rcases ha with rfl | rfl | rfl | rfl | rfl | rfl | rfl | rfl | rfl | rfl <;>
      first
        | decide
        | exact str_ne_of_length_lt _ _ _ (by decide)
        | exact str_ne_of_data_getElem _ _ _ 5 (by decide) (by decide)
        | exact str_ne_of_data_getElem _ _ _ 12 (by decide) (by decide)

theorem renderGraphicNames_sublist (env : ZplEnv) (entry : Entry) :
    List.Sublist (renderGraphicNames env entry)
      (allGraphicNames (env.pyHash entry.reagent_name % 10000)
        (env.pyHash entry.reagent_batch_number % 10000)
        (env.pyHash entry.expiry_str % 10000)
        (env.pyHash entry.entry_str % 10000)) := by
  unfold renderGraphicNames allGraphicNames
  refine List.Sublist.append ?_ ?_
  · unfold generateFixedGraphics
    refine map_filterMap_sublist _ _ _ _ ?_
    intro kt v hv
    cases hg : text_to_zpl_graphic env kt.2 ("ITEM_" ++ kt.1) (kt.1 == "NEW_BATCH") with
    | none => simp [hg] at hv
    | some g =>
      simp [hg] at hv
      subst hv
      rfl
  · refine List.Sublist.append (ite_singleton_sublist _ _) ?_
    refine List.Sublist.append (ite_singleton_sublist _ _) ?_
    refine List.Sublist.append (ite_singleton_sublist _ _) ?_
    exact List.Sublist.append (ite_singleton_sublist _ _) (ite_singleton_sublist _ _)

/-- C6 (amended): every graphic definition emitted within one render call
carries a distinct name token — the fixed names are pairwise distinct
literals, the dynamic names use pairwise distinct field prefixes, and at
most one dynamic graphic per field exists per call. -/
theorem render_graphic_names_unique (env : ZplEnv) (entry : Entry) :
    (renderGraphicNames env entry).Pairwise (· ≠ ·) :=
  List.Pairwise.sublist (renderGraphicNames_sublist env entry)
    (allGraphicNames_pairwise _ _ _ _)

def envHashCollide : ZplEnv :=
  ⟨true, some "C:/Windows/Fonts/msjh.ttc", fun _ _ => some bitmapW, fun _ => 0⟩

/-- C6 counterexample: the generator derives the dynamic name token from
`hash(content) % 10000` alone and never compares literal contents, so two
distinct reagent-name strings whose hashes collide are assigned the same
name token. -/
theorem dynamic_name_collision_counterexample :
    reagentItemName envHashCollide "GOT" = reagentItemName envHashCollide "GPT" ∧
    ("GOT" : String) ≠ "GPT" := by
  constructor
  · rfl
  · decide

/-! ### Marker and border placement inside one block (C1) -/

theorem app_beq_const_false (P t c : String) (h : c.length < P.length) :
    ((P ++ t) == c) = false :=
  beq_eq_false_iff_ne.mpr (Ne.symm (str_ne_of_length_lt c P t h))

theorem reagentItemName_ne_nb (env : ZplEnv) (s : String) :
    (reagentItemName env s == "ITEM_NEW_BATCH") = false :=
  app_beq_const_false "ITEM_REAGENT_NAME_DYN_" _ _ (by decide)

theorem batchItemName_ne_nb (env : ZplEnv) (s : String) :
    (batchItemName env s == "ITEM_NEW_BATCH") = false :=
  app_beq_const_false "ITEM_BATCH_DYN_" _ _ (by decide)

theorem expiryItemName_ne_nb (env : ZplEnv) (s : String) :
    (expiryItemName env s == "ITEM_NEW_BATCH") = false :=
  app_beq_const_false "ITEM_EXPIRY_DYN_" _ _ (by decide)

theorem entryItemName_ne_nb (env : ZplEnv) (s : String) :
    (entryItemName env s == "ITEM_NEW_BATCH") = false :=
  app_beq_const_false "ITEM_ENTRY_DYN_" _ _ (by decide)

theorem any_map_graphicDef (p : ZLine → Bool)
    (hp : ∀ s, p (ZLine.graphicDef s) = false) (l : List String) :
    (l.map ZLine.graphicDef).any p = false := by
  induction l with
  | nil => rfl
  | cons a r ih => simp [hp, ih]

theorem countP_map_graphicDef (p : ZLine → Bool)
    (hp : ∀ s, p (ZLine.graphicDef s) = false) (l : List String) :
    (l.map ZLine.graphicDef).countP p = 0 := by
  induction l with
  | nil => rfl
  | cons a r ih => simp [List.countP_cons, hp, ih]

theorem nb_title (fixed : List (String × String)) :
    (titleSection fixed).any isNewBatchMarkerLine = false := by
  unfold titleSection; split <;> rfl

theorem nb_reagent (env : ZplEnv) (fixed : List (String × String))
    (entry : Entry) :
    (reagentSection env fixed entry).any isNewBatchMarkerLine = false := by
  unfold reagentSection
  split
  · split <;> simp +decide [isNewBatchMarkerLine, reagentItemName_ne_nb]
  · split
    · split <;> simp +decide [isNewBatchMarkerLine, reagentItemName_ne_nb]
    · simp +decide [isNewBatchMarkerLine]

theorem nb_expiry (env : ZplEnv) (fixed : List (String × String))
    (entry : Entry) :
    (expirySection env fixed entry).any isNewBatchMarkerLine = false := by
  unfold expirySection
  split
  · split <;> simp +decide [isNewBatchMarkerLine, expiryItemName_ne_nb]
  · split <;> simp +decide [isNewBatchMarkerLine, expiryItemName_ne_nb]

theorem nb_entry (env : ZplEnv) (fixed : List (String × String))
    (entry : Entry) :
    (entrySection env fixed entry).any isNewBatchMarkerLine = false := by
  unfold entrySection
  split
  · split <;> simp +decide [isNewBatchMarkerLine, entryItemName_ne_nb]
  · split <;> simp +decide [isNewBatchMarkerLine, entryItemName_ne_nb]

theorem nb_out (fixed : List (String × String)) :
    (outSection fixed).any isNewBatchMarkerLine = false := by
  unfold outSection; split <;> rfl

theorem nb_person (fixed : List (String × String)) :
    (personSection fixed).any isNewBatchMarkerLine = false := by
  unfold personSection
  split <;> split <;> rfl

theorem nb_batch (env : ZplEnv) (fixed : List (String × String))
    (entry : Entry) (first : Bool) :
    (batchSection env fixed entry first).any isNewBatchMarkerLine = first := by
  unfold batchSection
  cases first <;>
    simp +decide [List.any_append, isNewBatchMarkerLine, batchItemName_ne_nb,
      apply_ite (List.any · isNewBatchMarkerLine)]

theorem any_map_graphicDef_pair (p : ZLine → Bool)
    (hp : ∀ s, p (ZLine.graphicDef s) = false) (l : List (String × String)) :
    (l.map fun kt => ZLine.graphicDef kt.2).any p = false := by
  induction l with
  | nil => rfl
  | cons a r ih => simp [hp, ih]

theorem countP_map_graphicDef_pair (p : ZLine → Bool)
    (hp : ∀ s, p (ZLine.graphicDef s) = false) (l : List (String × String)) :
    (l.map fun kt => ZLine.graphicDef kt.2).countP p = 0 := by
  induction l with
  | nil => rfl
  | cons a r ih => simp [List.countP_cons, hp, ih]

theorem nb_border (first : Bool) :
    (borderSection first).any isNewBatchMarkerLine = false := by
  cases first <;> rfl

theorem hasNewBatchMarker_mkLabel (env : ZplEnv) (fixed : List (String × String))
    (entry : Entry) (first : Bool) :
    hasNewBatchMarker (mkLabel env fixed entry first) = first := by
  unfold hasNewBatchMarker mkLabel
  simp [List.any_append, nb_border, nb_title, nb_reagent, nb_batch, nb_expiry,
    nb_entry, nb_out, nb_person,
    any_map_graphicDef isNewBatchMarkerLine (fun _ => rfl),
    any_map_graphicDef_pair isNewBatchMarkerLine (fun _ => rfl),
    isNewBatchMarkerLine]

theorem borderSection_count (first : Bool) :
    (borderSection first).countP isBorderLine = if first then 2 else 1 := by
  cases first <;> rfl

theorem border_title (fixed : List (String × String)) :
    (titleSection fixed).countP isBorderLine = 0 := by
  unfold titleSection; split <;> rfl

theorem border_reagent (env : ZplEnv) (fixed : List (String × String))
    (entry : Entry) :
    (reagentSection env fixed entry).countP isBorderLine = 0 := by
  unfold reagentSection
  split
  · split <;> rfl
  · split
    · split <;> rfl
    · rfl

theorem border_batch (env : ZplEnv) (fixed : List (String × String))
    (entry : Entry) (first : Bool) :
    (batchSection env fixed entry first).countP isBorderLine = 0 := by
  unfold batchSection
  split
  · split <;> split <;> split <;> rfl
  · split
    · split <;> rfl
    · split <;> rfl

theorem border_expiry (env : ZplEnv) (fixed : List (String × String))
    (entry : Entry) :
    (expirySection env fixed entry).countP isBorderLine = 0 := by
  unfold expirySection
  split
  · split <;> rfl
  · split <;> rfl

theorem border_entry (env : ZplEnv) (fixed : List (String × String))
    (entry : Entry) :
    (entrySection env fixed entry).countP isBorderLine = 0 := by
  unfold entrySection
  split
  · split <;> rfl
  · split <;> rfl

theorem border_out (fixed : List (String × String)) :
    (outSection fixed).countP isBorderLine = 0 := by
  unfold outSection; split <;> rfl

theorem border_person (fixed : List (String × String)) :
    (personSection fixed).countP isBorderLine = 0 := by
  unfold personSection; split <;> split <;> rfl

theorem borderCount_mkLabel (env : ZplEnv) (fixed : List (String × String))
    (entry : Entry) (first : Bool) :
    borderCount (mkLabel env fixed entry first) = if first then 2 else 1 := by
  unfold borderCount mkLabel
  simp [List.countP_append, borderSection_count, border_title, border_reagent,
    border_batch, border_expiry, border_entry, border_out, border_person,
    countP_map_graphicDef isBorderLine (fun _ => rfl),
    countP_map_graphicDef_pair isBorderLine (fun _ => rfl), List.countP_cons,
    isBorderLine]

theorem batchItemName_ne_q (env : ZplEnv) (s : String) :
    (batchItemName env s == "ITEM_QUALIFIED") = false :=
  app_beq_const_false "ITEM_BATCH_DYN_" _ _ (by decide)

theorem qualified_batchSection (env : ZplEnv) (fixed : List (String × String))
    (entry : Entry)
    (h : (fixed.lookup "BATCH").isSome = true ∨ dynBatchGraphic env entry = none) :
    hasQualifiedMarker entry.reagent_batch_number
      (batchSection env fixed entry false) = true := by
  unfold hasQualifiedMarker batchSection
  rcases h with h | h
  · rw [if_pos h]
    simp +decide [List.any_append, isQualifiedMarkerLine, batchItemName_ne_q,
      apply_ite (List.any · (isQualifiedMarkerLine entry.reagent_batch_number))]
  · simp +decide [List.any_append, isQualifiedMarkerLine, batchItemName_ne_q, h,
      apply_ite (List.any · (isQualifiedMarkerLine entry.reagent_batch_number))]

theorem generate_zpl_labels_get (env : ZplEnv) (fixed : List (String × String))
    (entry : Entry) (qty : Option Nat) (inb : Bool) (i : Nat)
    (hi : i < (generate_zpl_labels env fixed entry qty inb).length) :
    (generate_zpl_labels env fixed entry qty inb).get ⟨i, hi⟩ =
      mkLabel env fixed entry (inb && i == 0) := by
  unfold generate_zpl_labels at hi ⊢
  simp [List.get_eq_getElem, List.getElem_map]

/-! ### The PDF path (`get_chinese_font`, `generate_pdf_labels`) -/

/-- Environment of the PDF path: whether a candidate font file exists and
registers successfully with the PDF library (a missing file and a failed
registration both make `get_chinese_font` try the next candidate). -/
structure PdfEnv where
  pdfFontOk : String → Bool

/-- Models `get_chinese_font` (lines 885-924): tries the four candidate
font files in order; always returns a font name, falling back to the
universal bold font. -/
def get_chinese_font (env : PdfEnv) : String :=
  if env.pdfFontOk "C:/Windows/Fonts/msjhbd.ttc" then "ChineseFontBold"
  else if env.pdfFontOk "C:/Windows/Fonts/msjh.ttc" then "ChineseFont"
  else if env.pdfFontOk "C:/Windows/Fonts/msyhbd.ttc" then "ChineseFontBold"
  else if env.pdfFontOk "C:/Windows/Fonts/msyh.ttc" then "ChineseFont"
  else "Helvetica-Bold"

/-- One canvas operation of the reportlab drawing sequence. Coordinates
are in millimetres (`x * mm` in the source), line widths in raw points. -/
inductive PdfOp where
  | translate : ℚ → ℚ → PdfOp
  | rotate : ℚ → PdfOp
  | setLineWidth : ℚ → PdfOp
  | rect : ℚ → ℚ → ℚ → ℚ → PdfOp
  | setFont : String → ℚ → PdfOp
  | drawString : ℚ → ℚ → String → PdfOp
  | resetTransforms : PdfOp
  | showPage : PdfOp
deriving DecidableEq

/-- Physical label width: 50 mm. -/
def labelWidthMM : ℚ := 50

/-- Physical label height: 35 mm. -/
def labelHeightMM : ℚ := 35

/-- The canvas operations of one PDF label page: the body of the
`for i in range(quantity)` loop of `generate_pdf_labels` (lines 1428-1482),
excluding the page break. -/
def pdfCopyOps (env : PdfEnv) (entry : Entry) (first : Bool) : List PdfOp :=
  [PdfOp.translate labelHeightMM 0, PdfOp.rotate 90] ++
  (if first then
    [PdfOp.setLineWidth 2, PdfOp.rect (1/2) (1/2) 49 34,
     PdfOp.setLineWidth (1/2), PdfOp.rect (3/2) (3/2) 47 32]
  else [PdfOp.setLineWidth (1/2), PdfOp.rect 1 1 48 33]) ++
  [PdfOp.setFont (get_chinese_font env) 10,
   PdfOp.drawString 2 29 "【入庫】",
   PdfOp.setFont (get_chinese_font env) 8,
   PdfOp.drawString 2 25 ("試劑名稱：" ++ entry.reagent_name),
   PdfOp.drawString 2 21 (if first then
     "試劑批號：" ++ entry.reagent_batch_number ++ " >>新批號<<"
   else "試劑批號：" ++ entry.reagent_batch_number ++ " (允收合格)"),
   PdfOp.drawString 2 17 ("穩定效期：" ++ entry.expiry_str),
   PdfOp.drawString 2 13 ("入庫時間：" ++ entry.entry_str),
   PdfOp.setFont (get_chinese_font env) 10,
   PdfOp.drawString 2 8 "【出庫】",
   PdfOp.setFont (get_chinese_font env) 8,
   PdfOp.drawString 2 4 "人員：",
   PdfOp.drawString 25 4 "出庫日期：",
   PdfOp.resetTransforms]

/-- The full canvas op stream of `generate_pdf_labels`: one copy per loop
iteration, `showPage` after every copy except the last (lines 1485-1486). -/
def pdfOps (env : PdfEnv) (entry : Entry) (q : Nat) (inb : Bool) : List PdfOp :=
  (List.range q).flatMap fun i =>
    pdfCopyOps env entry (inb && i == 0) ++
      (if i < q - 1 then [PdfOp.showPage] else [])

/-- Result of `generate_pdf_labels` (lines 1404-1489): the page size
passed to the canvas (width/height swapped relative to the label), the
resolved font, and the op stream. -/
structure PdfDoc where
  pagesize : ℚ × ℚ
  font : String
  ops : List PdfOp

def generate_pdf_labels (env : PdfEnv) (entry : Entry) (quantity : Option Nat)
    (is_new_batch : Bool) : PdfDoc :=
  ⟨(labelHeightMM, labelWidthMM), get_chinese_font env,
    pdfOps env entry (quantity.getD entry.quantity) is_new_batch⟩

/-- Pages of a canvas op stream: split at `showPage`. -/
def splitPages : List PdfOp → List (List PdfOp)
  | [] => [[]]
  | op :: rest =>
    if op = PdfOp.showPage then [] :: splitPages rest
    else
      match splitPages rest with
      | [] => [[op]]
      | p :: ps => (op :: p) :: ps

theorem splitPages_no_sp (A : List PdfOp) (hA : PdfOp.showPage ∉ A) :
    splitPages A = [A] := by
  induction A with
  | nil => rfl
  | cons op rest ih =>
    have hop : ¬ op = PdfOp.showPage := fun e => hA (by simp [e])
    have hrest : PdfOp.showPage ∉ rest := fun hr => hA (by simp [hr])
    rw [splitPages, if_neg hop, ih hrest]

theorem splitPages_append_sp (A r : List PdfOp) (hA : PdfOp.showPage ∉ A) :
    splitPages (A ++ PdfOp.showPage :: r) = A :: splitPages r := by
  induction A with
  | nil => simp [splitPages]
  | cons op rest ih =>
    have hop : ¬ op = PdfOp.showPage := fun e => hA (by simp [e])
    have hrest : PdfOp.showPage ∉ rest := fun hr => hA (by simp [hr])
    rw [List.cons_append, splitPages, if_neg hop, ih hrest]

theorem flatMap_congr_fn {α β : Type} (l : List α) (f g : α → List β)
    (h : ∀ a ∈ l, f a = g a) : l.flatMap f = l.flatMap g := by
  induction l with
  | nil => rfl
  | cons a r ih =>
    simp only [List.flatMap_cons, h a (by simp),
      ih (fun x hx => h x (by simp [hx]))]

theorem bind_sep_form {α : Type} (g : Nat → List α) (x : α) (m : Nat) :
    ((List.range m).flatMap fun i => g i ++ [x]) ++ g m =
      g 0 ++ (List.range m).flatMap fun i => x :: g (i + 1) := by
  induction m with
  | zero => simp
  | succ k ih =>
    calc (((List.range (k + 1)).flatMap fun i => g i ++ [x])) ++ g (k + 1)
        = ((((List.range k).flatMap fun i => g i ++ [x]) ++ (g k ++ [x]))) ++
            g (k + 1) := by
          rw [List.range_succ, List.flatMap_append]
          simp
      _ = (((List.range k).flatMap fun i => g i ++ [x]) ++ g k) ++
            (x :: g (k + 1)) := by simp [List.append_assoc]
      _ = (g 0 ++ (List.range k).flatMap fun i => x :: g (i + 1)) ++
            (x :: g (k + 1)) := by rw [ih]
      _ = g 0 ++ (((List.range k).flatMap fun i => x :: g (i + 1)) ++
            (x :: g (k + 1))) := by simp [List.append_assoc]
      _ = g 0 ++ (List.range (k + 1)).flatMap fun i => x :: g (i + 1) := by
          rw [List.range_succ, List.flatMap_append]
          simp

theorem pdfOps_eq (env : PdfEnv) (entry : Entry) (q : Nat) (inb : Bool)
    (hq : 1 ≤ q) :
    pdfOps env entry q inb =
      pdfCopyOps env entry inb ++
        (List.range (q - 1)).flatMap
          (fun _ => PdfOp.showPage :: pdfCopyOps env entry false) := by
  obtain ⟨m, rfl⟩ : ∃ m, q = m + 1 := ⟨q - 1, by omega⟩
  unfold pdfOps
  rw [List.range_succ, List.flatMap_append, List.flatMap_cons, List.flatMap_nil,
    List.append_nil]
  have hlast : (if m < m + 1 - 1 then [PdfOp.showPage] else []) = [] := by simp
  rw [hlast, List.append_nil]
  have hbody : ((List.range m).flatMap fun i =>
      pdfCopyOps env entry (inb && i == 0) ++
        (if i < m + 1 - 1 then [PdfOp.showPage] else [])) =
      (List.range m).flatMap fun i =>
        pdfCopyOps env entry (inb && i == 0) ++ [PdfOp.showPage] := by
    apply flatMap_congr_fn
    intro a ha
    simp only [List.mem_range] at ha
    rw [if_pos (by omega)]
  rw [hbody,
    bind_sep_form (fun i => pdfCopyOps env entry (inb && i == 0)) PdfOp.showPage m]
  congr 1
  · simp
  · apply flatMap_congr_fn
    intro a ha
    simp

theorem range_flatMap_const_succ {β : Type} (c : List β) (n : Nat) :
    (List.range (n + 1)).flatMap (fun _ => c) =
      c ++ (List.range n).flatMap fun _ => c := by
  induction n with
  | zero => simp [List.range_succ]
  | succ k ih =>
    have hend : ((List.range (k + 1)).flatMap fun _ => c) =
        ((List.range k).flatMap fun _ => c) ++ c := by
      rw [List.range_succ, List.flatMap_append]
      simp
    conv_lhs => rw [List.range_succ]
    rw [List.flatMap_append, ih]
    simp only [List.flatMap_cons, List.flatMap_nil, List.append_nil,
      List.append_assoc]
    congr 1
    rw [← hend]
    exact ih

theorem splitPages_sep_blocks (A B : List PdfOp) (m : Nat)
    (hA : PdfOp.showPage ∉ A) (hB : PdfOp.showPage ∉ B) :
    splitPages (A ++ (List.range m).flatMap fun _ => PdfOp.showPage :: B) =
      A :: List.replicate m B := by
  induction m generalizing A with
  | zero => simp [splitPages_no_sp A hA]
  | succ k ih =>
    rw [range_flatMap_const_succ]
    show splitPages (A ++ (PdfOp.showPage :: (B ++ _))) = _
    rw [splitPages_append_sp A _ hA, ih B hB]
    rfl

theorem sp_not_mem_copyOps (env : PdfEnv) (entry : Entry) (first : Bool) :
    PdfOp.showPage ∉ pdfCopyOps env entry first := by
  unfold pdfCopyOps
  cases first <;> simp

theorem pdf_pages_eq (env : PdfEnv) (entry : Entry) (q : Nat) (inb : Bool)
    (hq : 1 ≤ q) :
    splitPages (pdfOps env entry q inb) =
      pdfCopyOps env entry inb ::
        List.replicate (q - 1) (pdfCopyOps env entry false) := by
  rw [pdfOps_eq env entry q inb hq]
  exact splitPages_sep_blocks _ _ _ (sp_not_mem_copyOps env entry inb)
    (sp_not_mem_copyOps env entry false)

def isRectOp : PdfOp → Bool
  | PdfOp.rect _ _ _ _ => true
  | _ => false

def isRotateOp : PdfOp → Bool
  | PdfOp.rotate _ => true
  | _ => false

/-- Does the page draw literal text `t` as a `drawString` payload? -/
def pdfHasText (t : String) (p : List PdfOp) : Bool :=
  p.any fun op => match op with
    | PdfOp.drawString _ _ s => s == t
    | _ => false

theorem copyOps_head (env : PdfEnv) (entry : Entry) (first : Bool) :
    (pdfCopyOps env entry first).head? =
      some (PdfOp.translate labelHeightMM 0) := by
  cases first <;> rfl

theorem copyOps_second (env : PdfEnv) (entry : Entry) (first : Bool) :
    (pdfCopyOps env entry first)[1]? = some (PdfOp.rotate 90) := by
  cases first <;> rfl

theorem copyOps_last (env : PdfEnv) (entry : Entry) (first : Bool) :
    (pdfCopyOps env entry first).getLast? = some PdfOp.resetTransforms := by
  cases first <;> rfl

theorem copyOps_rotate_count (env : PdfEnv) (entry : Entry) (first : Bool) :
    (pdfCopyOps env entry first).countP isRotateOp = 1 := by
  cases first <;> rfl

theorem copyOps_rect_count (env : PdfEnv) (entry : Entry) (first : Bool) :
    (pdfCopyOps env entry first).countP isRectOp = if first then 2 else 1 := by
  cases first <;> rfl

/-- C9: the vector path produces exactly one page per copy; the page size
handed to the canvas swaps the label's width and height; every page begins
with the translate-then-rotate transform, contains exactly one rotation,
and ends by resetting the transform before the next page; and font
resolution failure only selects the universal bold fallback font — the
document is produced for every environment. -/
theorem pdf_pages_and_transform (env : PdfEnv) (entry : Entry)
    (qty : Option Nat) (inb : Bool) (hq : 1 ≤ qty.getD entry.quantity) :
    (generate_pdf_labels env entry qty inb).pagesize =
      (labelHeightMM, labelWidthMM) ∧
    (splitPages (generate_pdf_labels env entry qty inb).ops).length =
      qty.getD entry.quantity ∧
    (∀ p ∈ splitPages (generate_pdf_labels env entry qty inb).ops,
      p.head? = some (PdfOp.translate labelHeightMM 0) ∧
      p[1]? = some (PdfOp.rotate 90) ∧
      p.countP isRotateOp = 1 ∧
      p.getLast? = some PdfOp.resetTransforms) ∧
    ((∀ f, env.pdfFontOk f = false) →
      (generate_pdf_labels env entry qty inb).font = "Helvetica-Bold") := by
  refine ⟨rfl, ?_, ?_, ?_⟩
  · show (splitPages (pdfOps env entry (qty.getD entry.quantity) inb)).length = _
    rw [pdf_pages_eq env entry _ inb hq]
    simp only [List.length_cons, List.length_replicate]
    omega
  · intro p hp
    have hp' : p ∈ splitPages (pdfOps env entry (qty.getD entry.quantity) inb) := hp
    rw [pdf_pages_eq env entry _ inb hq] at hp'
    simp only [List.mem_cons] at hp'
    rcases hp' with rfl | hp'
    · exact ⟨copyOps_head env entry inb, copyOps_second env entry inb,
        copyOps_rotate_count env entry inb, copyOps_last env entry inb⟩
    · rw [List.eq_of_mem_replicate hp']
      exact ⟨copyOps_head env entry false, copyOps_second env entry false,
        copyOps_rotate_count env entry false, copyOps_last env entry false⟩
  · intro hf
    show get_chinese_font env = _
    unfold get_chinese_font
    simp [hf]

/-- Example record: the spec's sample scenario. -/
def entryW : Entry := ⟨"AFP", "AFP001", "2025/08/31", "2025/08/20", 1⟩

def envPdfNone : PdfEnv := ⟨fun _ => false⟩

theorem pdf_pages_and_transform_witness :
    1 ≤ (some 2 : Option Nat).getD entryW.quantity ∧
    ((generate_pdf_labels envPdfNone entryW (some 2) true).pagesize =
      (labelHeightMM, labelWidthMM) ∧
    (splitPages (generate_pdf_labels envPdfNone entryW (some 2) true).ops).length =
      (some 2 : Option Nat).getD entryW.quantity ∧
    (∀ p ∈ splitPages (generate_pdf_labels envPdfNone entryW (some 2) true).ops,
      p.head? = some (PdfOp.translate labelHeightMM 0) ∧
      p[1]? = some (PdfOp.rotate 90) ∧
      p.countP isRotateOp = 1 ∧
      p.getLast? = some PdfOp.resetTransforms) ∧
    ((∀ f, envPdfNone.pdfFontOk f = false) →
      (generate_pdf_labels envPdfNone entryW (some 2) true).font =
        "Helvetica-Bold")) :=
  ⟨by decide, pdf_pages_and_transform envPdfNone entryW (some 2) true (by decide)⟩

theorem str_data_inj (x y : String) (h : x.data = y.data) : x = y := by
  cases x; cases y; exact congrArg String.mk h

theorem str_app_right_ne (p x y : String) (h : x ≠ y) : p ++ x ≠ p ++ y := by
  intro he
  apply h
  apply str_data_inj
  have hd := congrArg String.data he
  rw [String.data_append, String.data_append] at hd
  exact List.append_cancel_left hd

theorem const_beq_app_false (c P t : String) (h : c.length < P.length) :
    (c == P ++ t) = false :=
  beq_eq_false_iff_ne.mpr (str_ne_of_length_lt c P t h)

theorem const_beq_app_false_at (c P t : String) (i : Nat)
    (hi : i < P.data.length) (h : c.data[i]? ≠ P.data[i]?) :
    (c == P ++ t) = false :=
  beq_eq_false_iff_ne.mpr (str_ne_of_data_getElem c P t i hi h)

theorem app_beq_app_false (a s b t : String) (i : Nat) (ha : i < a.data.length)
    (hb : i < b.data.length) (h : a.data[i]? ≠ b.data[i]?) :
    ((a ++ s) == (b ++ t)) = false :=
  beq_eq_false_iff_ne.mpr (str_ne_app_app a b s t i ha hb h)

theorem app_right_beq_false (p x y : String) (h : x ≠ y) :
    ((p ++ x) == (p ++ y)) = false :=
  beq_eq_false_iff_ne.mpr (str_app_right_ne p x y h)

theorem copyOps_marker_text (env : PdfEnv) (entry : Entry) (first : Bool) :
    pdfHasText ("試劑批號：" ++ entry.reagent_batch_number ++ " >>新批號<<")
      (pdfCopyOps env entry first) = first := by
  unfold pdfHasText pdfCopyOps
  cases first with
  | true => simp
  | false =>
    simp only [String.append_assoc]
    simp [List.any_append]
    refine ⟨?_, ?_, ?_, ?_, ?_, ?_, ?_, ?_⟩
    · exact str_ne_of_length_lt _ _ _ (by decide)
    · exact str_ne_app_app _ _ _ _ 2 (by decide) (by decide) (by decide)
    · exact str_app_right_ne _ _ _ (str_app_right_ne _ _ _ (by decide))
    · exact str_ne_app_app _ _ _ _ 0 (by decide) (by decide) (by decide)
    · exact str_ne_app_app _ _ _ _ 0 (by decide) (by decide) (by decide)
    · exact str_ne_of_length_lt _ _ _ (by decide)
    · exact str_ne_of_length_lt _ _ _ (by decide)
    · exact str_ne_of_data_getElem _ _ _ 0 (by decide) (by decide)

theorem copyOps_qualified_text (env : PdfEnv) (entry : Entry) (first : Bool) :
    pdfHasText ("試劑批號：" ++ entry.reagent_batch_number ++ " (允收合格)")
      (pdfCopyOps env entry first) = !first := by
  unfold pdfHasText pdfCopyOps
  cases first with
  | false => simp
  | true =>
    simp only [String.append_assoc]
    simp [List.any_append]
    refine ⟨?_, ?_, ?_, ?_, ?_, ?_, ?_, ?_⟩
    · exact str_ne_of_length_lt _ _ _ (by decide)
    · exact str_ne_app_app _ _ _ _ 2 (by decide) (by decide) (by decide)
    · exact str_app_right_ne _ _ _ (str_app_right_ne _ _ _ (by decide))
    · exact str_ne_app_app _ _ _ _ 0 (by decide) (by decide) (by decide)
    · exact str_ne_app_app _ _ _ _ 0 (by decide) (by decide) (by decide)
    · exact str_ne_of_length_lt _ _ _ (by decide)
    · exact str_ne_of_length_lt _ _ _ (by decide)
    · exact str_ne_of_data_getElem _ _ _ 0 (by decide) (by decide)

/-- C1 (amended): in both generators, exactly the first copy of a
new-batch render gets the double border and the new-batch marker, and when
`is_new_batch` is false no copy does.  In the ZPL path a non-first copy
carries the qualified marker whenever the fixed `BATCH` caption graphic is
available or the dynamic batch graphic is not; in the remaining branch
(fixed `BATCH` absent, dynamic batch graphic present) the non-first copy
carries no qualified marker, contrary to the original claim.  In the PDF
path all copies behave as originally claimed. -/
theorem first_copy_marking (env : ZplEnv) (fixed : List (String × String))
    (entry : Entry) (qty : Option Nat) (inb : Bool) (penv : PdfEnv) :
    (∀ i (hi : i < (generate_zpl_labels env fixed entry qty inb).length),
      borderCount ((generate_zpl_labels env fixed entry qty inb).get ⟨i, hi⟩) =
        (if inb && i == 0 then 2 else 1) ∧
      hasNewBatchMarker
        ((generate_zpl_labels env fixed entry qty inb).get ⟨i, hi⟩) =
        (inb && i == 0) ∧
      (((fixed.lookup "BATCH").isSome = true ∨ dynBatchGraphic env entry = none) →
        (inb && i == 0) = false →
        hasQualifiedMarker entry.reagent_batch_number
          ((generate_zpl_labels env fixed entry qty inb).get ⟨i, hi⟩) = true)) ∧
    (∀ first : Bool,
      (pdfCopyOps penv entry first).countP isRectOp = (if first then 2 else 1) ∧
      pdfHasText ("試劑批號：" ++ entry.reagent_batch_number ++ " >>新批號<<")
        (pdfCopyOps penv entry first) = first ∧
      pdfHasText ("試劑批號：" ++ entry.reagent_batch_number ++ " (允收合格)")
        (pdfCopyOps penv entry first) = !first) ∧
    (∀ q (hq : 1 ≤ q) (j : Nat)
      (hj : j < (splitPages (pdfOps penv entry q inb)).length),
      (splitPages (pdfOps penv entry q inb)).get ⟨j, hj⟩ =
        pdfCopyOps penv entry (inb && j == 0)) := by
  refine ⟨?_, ?_, ?_⟩
  · intro i hi
    rw [generate_zpl_labels_get env fixed entry qty inb i hi]
    refine ⟨borderCount_mkLabel env fixed entry _,
      hasNewBatchMarker_mkLabel env fixed entry _, ?_⟩
    intro hcond hflag
    rw [hflag]
    have hb := qualified_batchSection env fixed entry hcond
    unfold hasQualifiedMarker at hb ⊢
    unfold mkLabel
    simp [List.any_append, hb]
  · intro first
    exact ⟨copyOps_rect_count penv entry first,
      copyOps_marker_text penv entry first,
      copyOps_qualified_text penv entry first⟩
  · intro q hq j hj
    have hpages := pdf_pages_eq penv entry q inb hq
    rcases j with _ | j
    · simp [List.get_eq_getElem]
      rw [List.getElem_of_eq hpages]
      simp
    · simp only [List.get_eq_getElem]
      rw [List.getElem_of_eq hpages]
      simp only [List.getElem_cons_succ]
      rw [List.getElem_replicate]
      simp

instance blockMentionsDecidable (b : List ZLine) (t : String) :
    Decidable (blockMentions b t) :=
  List.decidableBEx (fun s : String => t.data <:+: s.data) (blockTexts b)

def envCx : ZplEnv := ⟨true, some "C:/Windows/Fonts/msjh.ttc",
  fun t _ => if t = "B1" then some bitmapW else none, fun _ => 0⟩

def entryCx : Entry := ⟨"", "B1", "", "", 2⟩

/-- C1 counterexample: with the fixed caption graphics unavailable (their
rasterization failed at startup) and the dynamic batch graphic available,
the second copy of a new-batch render gets a single border but carries no
qualified marker — neither as a graphic nor as text. -/
theorem first_copy_marking_counterexample :
    hasQualifiedMarker "B1"
      ((generate_zpl_labels envCx (generateFixedGraphics envCx) entryCx
        (some 2) true).getD 1 []) = false ∧
    borderCount
      ((generate_zpl_labels envCx (generateFixedGraphics envCx) entryCx
        (some 2) true).getD 1 []) = 1 ∧
    ¬ blockMentions
      ((generate_zpl_labels envCx (generateFixedGraphics envCx) entryCx
        (some 2) true).getD 1 []) "(允收合格)" := by
  refine ⟨by decide, by decide, by decide⟩

theorem first_copy_marking_witness :
    0 < (generate_zpl_labels envCx (generateFixedGraphics envCx) entryW
      (some 2) true).length ∧
    borderCount ((generate_zpl_labels envCx (generateFixedGraphics envCx)
      entryW (some 2) true).get ⟨0, by decide⟩) = (if true && 0 == 0 then 2 else 1) :=
  ⟨by decide,
    ((first_copy_marking envCx (generateFixedGraphics envCx) entryW (some 2)
      true envPdfNone).1 0 (by decide)).1⟩

/-! ### Literal text content of a block (C4, C7) -/

theorem mentions_lift {S b : List ZLine} (t : String) (hS : blockMentions S t)
    (hsub : ∀ l ∈ S, l ∈ b) : blockMentions b t := by
  obtain ⟨s, hs, hinf⟩ := hS
  obtain ⟨line, hline, hsl⟩ := List.mem_flatMap.mp hs
  exact ⟨s, List.mem_flatMap.mpr ⟨line, hsub line hline, hsl⟩, hinf⟩

theorem infix_self (t : String) : t.data <:+: t.data := List.infix_refl _

theorem infix_left (t u : String) : t.data <:+: (t ++ u).data := by
  rw [String.data_append]
  exact ⟨[], u.data, by simp⟩

theorem infix_right (u t : String) : t.data <:+: (u ++ t).data := by
  rw [String.data_append]
  exact ⟨u.data, [], by simp⟩

theorem infix_left2 (t u v : String) : t.data <:+: ((t ++ u) ++ v).data := by
  rw [String.data_append, String.data_append]
  exact ⟨[], u.data ++ v.data, by simp⟩

theorem infix_mid (p t v : String) : t.data <:+: ((p ++ t) ++ v).data := by
  rw [String.data_append, String.data_append]
  exact ⟨p.data, v.data, by simp⟩

theorem reagent_mentions (env : ZplEnv) (fixed : List (String × String))
    (entry : Entry) :
    blockMentions (reagentSection env fixed entry) "試劑名稱:" ∧
    blockMentions (reagentSection env fixed entry) entry.reagent_name := by
  unfold reagentSection
  split
  · split
    · exact ⟨⟨"試劑名稱:", by simp [blockTexts, lineTexts], infix_self _⟩,
        ⟨entry.reagent_name, by simp [blockTexts, lineTexts], infix_self _⟩⟩
    · exact ⟨⟨"試劑名稱:", by simp [blockTexts, lineTexts], infix_self _⟩,
        ⟨entry.reagent_name, by simp [blockTexts, lineTexts], infix_self _⟩⟩
  · split
    · split
      · exact ⟨⟨"試劑名稱:", by simp [blockTexts, lineTexts], infix_self _⟩,
          ⟨entry.reagent_name, by simp [blockTexts, lineTexts], infix_self _⟩⟩
      · exact ⟨⟨"試劑名稱:", by simp [blockTexts, lineTexts], infix_self _⟩,
          ⟨entry.reagent_name, by simp [blockTexts, lineTexts], infix_self _⟩⟩
    · exact ⟨⟨"試劑名稱:" ++ entry.reagent_name,
          by simp [blockTexts, lineTexts], infix_left _ _⟩,
        ⟨"試劑名稱:" ++ entry.reagent_name,
          by simp [blockTexts, lineTexts], infix_right _ _⟩⟩

theorem expiry_mentions (env : ZplEnv) (fixed : List (String × String))
    (entry : Entry) :
    blockMentions (expirySection env fixed entry) "穩定效期:" ∧
    blockMentions (expirySection env fixed entry) entry.expiry_str := by
  unfold expirySection
  split
  · split
    · exact ⟨⟨"穩定效期:", by simp [blockTexts, lineTexts], infix_self _⟩,
        ⟨entry.expiry_str, by simp [blockTexts, lineTexts], infix_self _⟩⟩
    · exact ⟨⟨"穩定效期:", by simp [blockTexts, lineTexts], infix_self _⟩,
        ⟨entry.expiry_str, by simp [blockTexts, lineTexts], infix_self _⟩⟩
  · split
    · exact ⟨⟨"穩定效期:", by simp [blockTexts, lineTexts], infix_self _⟩,
        ⟨entry.expiry_str, by simp [blockTexts, lineTexts], infix_self _⟩⟩
    · exact ⟨⟨"穩定效期:" ++ entry.expiry_str,
          by simp [blockTexts, lineTexts], infix_left _ _⟩,
        ⟨"穩定效期:" ++ entry.expiry_str,
          by simp [blockTexts, lineTexts], infix_right _ _⟩⟩

theorem entry_mentions (env : ZplEnv) (fixed : List (String × String))
    (entry : Entry) :
    blockMentions (entrySection env fixed entry) "入庫日期:" ∧
    blockMentions (entrySection env fixed entry) entry.entry_str := by
  unfold entrySection
  split
  · split
    · exact ⟨⟨"入庫日期:", by simp [blockTexts, lineTexts], infix_self _⟩,
        ⟨entry.entry_str, by simp [blockTexts, lineTexts], infix_self _⟩⟩
    · exact ⟨⟨"入庫日期:", by simp [blockTexts, lineTexts], infix_self _⟩,
        ⟨entry.entry_str, by simp [blockTexts, lineTexts], infix_self _⟩⟩
  · split
    · exact ⟨⟨"入庫日期:", by simp [blockTexts, lineTexts], infix_self _⟩,
        ⟨entry.entry_str, by simp [blockTexts, lineTexts], infix_self _⟩⟩
    · exact ⟨⟨"入庫日期:" ++ entry.entry_str,
          by simp [blockTexts, lineTexts], infix_left _ _⟩,
        ⟨"入庫日期:" ++ entry.entry_str,
          by simp [blockTexts, lineTexts], infix_right _ _⟩⟩

theorem batch_value_mentions (env : ZplEnv) (fixed : List (String × String))
    (entry : Entry) (first : Bool) :
    blockMentions (batchSection env fixed entry first)
      entry.reagent_batch_number := by
  unfold batchSection
  split
  · split <;>
      exact ⟨entry.reagent_batch_number,
        by simp [blockTexts, lineTexts, List.flatMap_append], infix_self _⟩
  · split
    · split
      · exact ⟨entry.reagent_batch_number,
          by simp [blockTexts, lineTexts], infix_self _⟩
      · exact ⟨"試劑批號:" ++ entry.reagent_batch_number ++ " ",
          by simp [blockTexts, lineTexts], infix_mid _ _ _⟩
    · split
      · exact ⟨entry.reagent_batch_number,
          by simp [blockTexts, lineTexts], infix_self _⟩
      · exact ⟨"試劑批號:" ++ entry.reagent_batch_number ++ " (允收合格)",
          by simp [blockTexts, lineTexts], infix_mid _ _ _⟩

theorem batch_caption_mentions (env : ZplEnv) (fixed : List (String × String))
    (entry : Entry) (first : Bool)
    (h : (fixed.lookup "BATCH").isSome = true ∨ dynBatchGraphic env entry = none
      ∨ first = true) :
    blockMentions (batchSection env fixed entry first) "試劑批號:" := by
  unfold batchSection
  split
  · exact ⟨"試劑批號:",
      by simp [blockTexts, lineTexts, List.flatMap_append], infix_self _⟩
  · rcases h with h | h | h
    · simp_all
    · rw [h]
      split
      · simp only [Option.isSome_none, Bool.false_eq_true, if_false]
        exact ⟨"試劑批號:" ++ entry.reagent_batch_number ++ " ",
          by simp [blockTexts, lineTexts], infix_left2 _ _ _⟩
      · simp only [Option.isSome_none, Bool.false_eq_true, if_false]
        exact ⟨"試劑批號:" ++ entry.reagent_batch_number ++ " (允收合格)",
          by simp [blockTexts, lineTexts], infix_left2 _ _ _⟩
    · rw [h]
      simp only [if_true]
      split
      · exact ⟨"試劑批號:", by simp [blockTexts, lineTexts], infix_self _⟩
      · exact ⟨"試劑批號:" ++ entry.reagent_batch_number ++ " ",
          by simp [blockTexts, lineTexts], infix_left2 _ _ _⟩

/-- C4 (amended): every copy block carries, as graphics or native-font
text, the caption and value of the name, expiry and entry-date fields and
the value of the batch field; the batch caption is carried whenever the
fixed `BATCH` caption graphic is available, or the dynamic batch graphic
is unavailable, or the copy is the first new-batch label — in the one
remaining branch the batch caption (and qualified marker) is dropped,
contrary to the original claim. -/
theorem block_field_texts (env : ZplEnv) (fixed : List (String × String))
    (entry : Entry) (qty : Option Nat) (inb : Bool) (i : Nat)
    (hi : i < (generate_zpl_labels env fixed entry qty inb).length) :
    blockMentions ((generate_zpl_labels env fixed entry qty inb).get ⟨i, hi⟩)
      "試劑名稱:" ∧
    blockMentions ((generate_zpl_labels env fixed entry qty inb).get ⟨i, hi⟩)
      entry.reagent_name ∧
    blockMentions ((generate_zpl_labels env fixed entry qty inb).get ⟨i, hi⟩)
      entry.reagent_batch_number ∧
    blockMentions ((generate_zpl_labels env fixed entry qty inb).get ⟨i, hi⟩)
      "穩定效期:" ∧
    blockMentions ((generate_zpl_labels env fixed entry qty inb).get ⟨i, hi⟩)
      entry.expiry_str ∧
    blockMentions ((generate_zpl_labels env fixed entry qty inb).get ⟨i, hi⟩)
      "入庫日期:" ∧
    blockMentions ((generate_zpl_labels env fixed entry qty inb).get ⟨i, hi⟩)
      entry.entry_str ∧
    (((fixed.lookup "BATCH").isSome = true ∨ dynBatchGraphic env entry = none ∨
      (inb && i == 0) = true) →
      blockMentions ((generate_zpl_labels env fixed entry qty inb).get ⟨i, hi⟩)
        "試劑批號:") := by
  rw [generate_zpl_labels_get env fixed entry qty inb i hi]
  have hsubR : ∀ l ∈ reagentSection env fixed entry,
      l ∈ mkLabel env fixed entry (inb && i == 0) := by
    intro l hl; unfold mkLabel; simp [List.mem_append, hl]
  have hsubB : ∀ l ∈ batchSection env fixed entry (inb && i == 0),
      l ∈ mkLabel env fixed entry (inb && i == 0) := by
    intro l hl; unfold mkLabel; simp [List.mem_append, hl]
  have hsubE : ∀ l ∈ expirySection env fixed entry,
      l ∈ mkLabel env fixed entry (inb && i == 0) := by
    intro l hl; unfold mkLabel; simp [List.mem_append, hl]
  have hsubD : ∀ l ∈ entrySection env fixed entry,
      l ∈ mkLabel env fixed entry (inb && i == 0) := by
    intro l hl; unfold mkLabel; simp [List.mem_append, hl]
  refine ⟨mentions_lift _ (reagent_mentions env fixed entry).1 hsubR,
    mentions_lift _ (reagent_mentions env fixed entry).2 hsubR,
    mentions_lift _ (batch_value_mentions env fixed entry _) hsubB,
    mentions_lift _ (expiry_mentions env fixed entry).1 hsubE,
    mentions_lift _ (expiry_mentions env fixed entry).2 hsubE,
    mentions_lift _ (entry_mentions env fixed entry).1 hsubD,
    mentions_lift _ (entry_mentions env fixed entry).2 hsubD, ?_⟩
  intro hcond
  exact mentions_lift _ (batch_caption_mentions env fixed entry _ hcond) hsubB

/-- C4 counterexample: with the fixed caption graphics unavailable and the
dynamic batch graphic available, a non-first copy block renders only the
batch-number graphic: the caption `試劑批號:` appears nowhere in the
block's literal text content. -/
theorem block_field_texts_counterexample :
    ¬ blockMentions ((generate_zpl_labels envCx (generateFixedGraphics envCx)
      entryCx (some 1) false).getD 0 []) "試劑批號:" := by decide

theorem block_field_texts_witness :
    0 < (generate_zpl_labels envCx (generateFixedGraphics envCx) entryW
      (some 1) false).length ∧
    blockMentions ((generate_zpl_labels envCx (generateFixedGraphics envCx)
      entryW (some 1) false).get ⟨0, by decide⟩) "試劑名稱:" :=
  ⟨by decide,
    (block_field_texts envCx (generateFixedGraphics envCx) entryW (some 1)
      false 0 (by decide)).1⟩

/-! ### Font-resolution failure (C7) -/

theorem ttzg_none (env : ZplEnv) (h : env.fontPath = none) (t i : String)
    (b : Bool) : text_to_zpl_graphic env t i b = none := by
  unfold text_to_zpl_graphic
  rw [h]
  split <;> rfl

theorem generateFixedGraphics_none (env : ZplEnv) (h : env.fontPath = none) :
    generateFixedGraphics env = [] := by
  unfold generateFixedGraphics
  simp [ttzg_none env h]

theorem dynNameGraphic_none (env : ZplEnv) (entry : Entry)
    (h : env.fontPath = none) : dynNameGraphic env entry = none := by
  unfold dynNameGraphic
  split <;> simp [ttzg_none env h]

theorem dynBatchGraphic_none (env : ZplEnv) (entry : Entry)
    (h : env.fontPath = none) : dynBatchGraphic env entry = none := by
  unfold dynBatchGraphic
  split <;> simp [ttzg_none env h]

theorem dynExpiryGraphic_none (env : ZplEnv) (entry : Entry)
    (h : env.fontPath = none) : dynExpiryGraphic env entry = none := by
  unfold dynExpiryGraphic
  split <;> simp [ttzg_none env h]

theorem dynEntryGraphic_none (env : ZplEnv) (entry : Entry)
    (h : env.fontPath = none) : dynEntryGraphic env entry = none := by
  unfold dynEntryGraphic
  split <;> simp [ttzg_none env h]

/-- C7: with no resolvable font, the fixed-graphic set is empty and every
dynamic graphic is null, yet rendering still produces exactly the
requested number of non-empty command blocks, each containing every field
(name, batch, expiry, entry date) as plain native-font text. -/
theorem font_failure_fallback (env : ZplEnv) (entry : Entry)
    (qty : Option Nat) (inb : Bool) (hfont : env.fontPath = none) :
    generateFixedGraphics env = [] ∧
    (generate_zpl_labels env (generateFixedGraphics env) entry qty inb).length
      = qty.getD entry.quantity ∧
    ∀ b ∈ generate_zpl_labels env (generateFixedGraphics env) entry qty inb,
      b ≠ [] ∧
      ZLine.fontText 20 55 "A0N" ("試劑名稱:" ++ entry.reagent_name) ∈ b ∧
      (∃ s, ZLine.fontText 20 85 "A0N" s ∈ b ∧
        ("試劑批號:" ++ entry.reagent_batch_number).data <:+: s.data) ∧
      ZLine.fontText 20 115 "A0N" ("穩定效期:" ++ entry.expiry_str) ∈ b ∧
      ZLine.fontText 20 145 "A0N" ("入庫日期:" ++ entry.entry_str) ∈ b := by
  have hfix : generateFixedGraphics env = [] := generateFixedGraphics_none env hfont
  have hname := dynNameGraphic_none env entry hfont
  have hbat := dynBatchGraphic_none env entry hfont
  have hexp := dynExpiryGraphic_none env entry hfont
  have hent := dynEntryGraphic_none env entry hfont
  refine ⟨hfix, by simp [generate_zpl_labels], ?_⟩
  intro b hb
  rw [hfix] at hb
  unfold generate_zpl_labels at hb
  simp only [List.mem_map, List.mem_range] at hb
  obtain ⟨i, -, rfl⟩ := hb
  have hR : reagentSection env [] entry =
      [ZLine.fontText 20 55 "A0N" ("試劑名稱:" ++ entry.reagent_name)] := by
    unfold reagentSection
    simp [hname]
  have hEx : expirySection env [] entry =
      [ZLine.fontText 20 115 "A0N" ("穩定效期:" ++ entry.expiry_str)] := by
    unfold expirySection
    simp [hexp]
  have hEn : entrySection env [] entry =
      [ZLine.fontText 20 145 "A0N" ("入庫日期:" ++ entry.entry_str)] := by
    unfold entrySection
    simp [hent]
  refine ⟨by simp [mkLabel], ?_, ?_, ?_, ?_⟩
  · unfold mkLabel
    simp [hR, List.mem_append]
  · cases hflag : (inb && i == 0) with
    | true =>
      refine ⟨"試劑批號:" ++ entry.reagent_batch_number ++ " ", ?_,
        infix_left _ _⟩
      have hB : batchSection env [] entry true =
          [ZLine.fontText 20 85 "A0N"
            ("試劑批號:" ++ entry.reagent_batch_number ++ " "),
           ZLine.fontText (122 + entry.reagent_batch_number.length * 11) 85
            "A0B" ">>新批號<<"] := by
        unfold batchSection
        simp [hbat]
      unfold mkLabel
      simp [hB, List.mem_append]
    | false =>
      refine ⟨"試劑批號:" ++ entry.reagent_batch_number ++ " (允收合格)", ?_,
        infix_left _ _⟩
      have hB : batchSection env [] entry false =
          [ZLine.fontText 20 85 "A0N"
            ("試劑批號:" ++ entry.reagent_batch_number ++ " (允收合格)")] := by
        unfold batchSection
        simp [hbat]
      unfold mkLabel
      simp [hB, List.mem_append]
  · unfold mkLabel
    simp [hEx, List.mem_append]
  · unfold mkLabel
    simp [hEn, List.mem_append]

def envFontNone : ZplEnv := ⟨true, none, fun _ _ => none, fun _ => 0⟩

theorem font_failure_fallback_witness :
    envFontNone.fontPath = none ∧
    (generate_zpl_labels envFontNone (generateFixedGraphics envFontNone)
      entryW none false).length = entryW.quantity :=
  ⟨rfl, (font_failure_fallback envFontNone entryW none false rfl).2.1⟩

/-! ### Rasterizer geometry (`_text_to_zpl_graphic` lines 155-186, C5) -/

/-- The ink bounding box returned by `textbbox` (lines 159-166), relative
to the drawing origin; `top` may be negative (ascenders). -/
structure InkBox where
  left : Int
  top : Int
  right : Int
  bottom : Int

/-- The fixed padding margin (line 172). -/
def zplPadding : Int := 6

/-- `img_width = text_width + padding * 2` (line 173). -/
def zplImgWidth (b : InkBox) : Int := (b.right - b.left) + zplPadding * 2

/-- `img_height = text_height + padding * 2` (line 175). -/
def zplImgHeight (b : InkBox) : Int := (b.bottom - b.top) + zplPadding * 2

/-- `text_y = padding - text_top` (line 183): the vertical draw origin is
shifted by the negation of the (possibly negative) top offset. -/
def zplTextY (b : InkBox) : Int := zplPadding - b.top

/-- The horizontal draw origin `draw.text((padding, text_y), ...)` (line
186): the text is drawn at x = padding, with no compensation for `left`. -/
def zplTextX : Int := zplPadding

/-- C5 (amended): the bitmap is the ink box padded by 6 px on each side
and the vertical origin is shifted by the negation of the top offset, so
no glyph pixel is clipped vertically; horizontally nothing is compensated,
so the absence of clipping additionally requires the measured left bearing
to lie within the padding (−6 ≤ left ≤ 6). -/
theorem raster_geometry (b : InkBox) (hlr : b.left ≤ b.right)
    (htb : b.top ≤ b.bottom) :
    zplImgWidth b = (b.right - b.left) + 6 + 6 ∧
    zplImgHeight b = (b.bottom - b.top) + 6 + 6 ∧
    zplTextY b = 6 - b.top ∧
    (∀ py : Int, b.top ≤ py → py < b.bottom →
      0 ≤ zplTextY b + py ∧ zplTextY b + py < zplImgHeight b) ∧
    (-6 ≤ b.left → b.left ≤ 6 →
      ∀ px : Int, b.left ≤ px → px < b.right →
        0 ≤ zplTextX + px ∧ zplTextX + px < zplImgWidth b) := by
  unfold zplImgWidth zplImgHeight zplTextY zplTextX zplPadding
  refine ⟨by ring, by ring, rfl, ?_, ?_⟩
  · intro py h1 h2
    omega
  · intro hl1 hl2 px h1 h2
    omega

/-- C5 counterexample: for a measured ink box with left bearing 20, the
right-most glyph column (x = 29, inside the ink box [20, 30)) is drawn at
image column 35, outside the bitmap of width 22 — the text is clipped
horizontally, contrary to the claim that no glyph pixel falls outside the
bitmap on any side. -/
theorem raster_geometry_counterexample :
    (20 : Int) ≤ 29 ∧ (29 : Int) < 30 ∧
    zplTextX + 29 = 35 ∧ zplImgWidth ⟨20, 0, 30, 5⟩ = 22 ∧
    ¬ (zplTextX + 29 < zplImgWidth ⟨20, 0, 30, 5⟩) := by decide

theorem raster_geometry_witness :
    ((⟨0, -3, 10, 8⟩ : InkBox).left ≤ (⟨0, -3, 10, 8⟩ : InkBox).right) ∧
    zplImgHeight ⟨0, -3, 10, 8⟩ = (8 - (-3)) + 6 + 6 :=
  ⟨by decide,
    (raster_geometry ⟨0, -3, 10, 8⟩ (by decide) (by decide)).2.1⟩

/-! ### Transport failure and the recovery file (C8) -/

/-- Transport/file environment of `generate_and_print_labels`: outcome of
`send_zpl_to_printer`, outcome of writing the recovery file, and the
timestamp string used in the file header. -/
structure PrintEnv where
  sendOk : Bool
  fileOk : Bool
  now : String

inductive PrintResult where
  | sent : PrintResult
  | saved : String → PrintResult
  | saveFailed : PrintResult
  | pdf : PdfDoc → PrintResult

/-- The recovery file text written on transport failure (lines 1256-1267):
header comment lines, then one block per copy preceded by a numbered
separator comment and followed by a blank-line separator. -/
def zplFileContent (penv : PrintEnv) (entry : Entry) (q : Nat) (inb : Bool)
    (cmds : List (List ZLine)) : String :=
  "# ZPL標籤指令 - 生成時間: " ++ penv.now ++ "\n" ++
  "# 試劑名稱: " ++ entry.reagent_name ++ "\n" ++
  "# 批號: " ++ entry.reagent_batch_number ++ "\n" ++
  "# 新批號: " ++ (if inb then "是" else "否") ++ "\n" ++
  "# 數量: " ++ toString q ++ "\n" ++
  "# " ++ String.mk (List.replicate 50 '=') ++ "\n\n" ++
  strConcat (cmds.enum.map fun p =>
    "# 第 " ++ toString (p.1 + 1) ++ " 張標籤\n" ++ renderBlock p.2 ++ "\n\n")

/-- Models `generate_and_print_labels` (lines 1226-1284): resolves the
quantity, and for the ZPL printer type either sends the blocks, or on
transport failure persists them to the recovery file and still returns
the full quantity (line 1278), or returns 0 if even the file write fails
(line 1281); any other printer type takes the PDF path. -/
def generate_and_print_labels (env : ZplEnv) (fixed : List (String × String))
    (penv : PrintEnv) (pdfenv : PdfEnv) (entry : Entry)
    (quantity : Option Nat) (is_new_batch : Bool) (printer_type : String) :
    Nat × PrintResult :=
  let q := quantity.getD entry.quantity
  if printer_type = "zpl" then
    let cmds := generate_zpl_labels env fixed entry (some q) is_new_batch
    if penv.sendOk then (q, PrintResult.sent)
    else if penv.fileOk then
      (q, PrintResult.saved (zplFileContent penv entry q is_new_batch cmds))
    else (0, PrintResult.saveFailed)
  else (q, PrintResult.pdf (generate_pdf_labels pdfenv entry (some q) is_new_batch))

theorem infix_strConcat {x : List Char} {s : String} (l : List String)
    (hs : s ∈ l) (hx : x <:+: s.data) : x <:+: (strConcat l).data := by
  induction l with
  | nil => cases hs
  | cons a r ih =>
    show x <:+: (a ++ strConcat r).data
    rcases List.mem_cons.mp hs with rfl | hs2
    · exact hx.trans (infix_left s (strConcat r))
    · exact (ih hs2).trans (infix_right a (strConcat r))

/-- C8: on transport failure with a successful file write, the composed
command text is persisted — the file carries, for every copy, a numbered
human-readable separator and that copy's full command block — and the
function still returns the requested quantity. -/
theorem transport_failure_recovery (env : ZplEnv)
    (fixed : List (String × String)) (penv : PrintEnv) (pdfenv : PdfEnv)
    (entry : Entry) (quantity : Option Nat) (inb : Bool)
    (hsend : penv.sendOk = false) (hfile : penv.fileOk = true) :
    (generate_and_print_labels env fixed penv pdfenv entry quantity inb
      "zpl").1 = quantity.getD entry.quantity ∧
    (generate_and_print_labels env fixed penv pdfenv entry quantity inb
      "zpl").2 = PrintResult.saved (zplFileContent penv entry
        (quantity.getD entry.quantity) inb
        (generate_zpl_labels env fixed entry
          (some (quantity.getD entry.quantity)) inb)) ∧
    (generate_zpl_labels env fixed entry
      (some (quantity.getD entry.quantity)) inb).length =
      quantity.getD entry.quantity ∧
    ∀ p ∈ (generate_zpl_labels env fixed entry
        (some (quantity.getD entry.quantity)) inb).enum,
      ("# 第 " ++ toString (p.1 + 1) ++ " 張標籤\n").data <:+:
        (zplFileContent penv entry (quantity.getD entry.quantity) inb
          (generate_zpl_labels env fixed entry
            (some (quantity.getD entry.quantity)) inb)).data ∧
      (renderBlock p.2).data <:+:
        (zplFileContent penv entry (quantity.getD entry.quantity) inb
          (generate_zpl_labels env fixed entry
            (some (quantity.getD entry.quantity)) inb)).data := by
  refine ⟨?_, ?_, by simp [generate_zpl_labels], ?_⟩
  · simp [generate_and_print_labels, hsend, hfile]
  · simp [generate_and_print_labels, hsend, hfile]
  · intro p hp
    have hmem : ("# 第 " ++ toString (p.1 + 1) ++ " 張標籤\n" ++
        renderBlock p.2 ++ "\n\n") ∈
        ((generate_zpl_labels env fixed entry
          (some (quantity.getD entry.quantity)) inb).enum.map fun r =>
          "# 第 " ++ toString (r.1 + 1) ++ " 張標籤\n" ++ renderBlock r.2
            ++ "\n\n") := by
      exact List.mem_map.mpr ⟨p, hp, rfl⟩
    constructor
    · have h1 : ("# 第 " ++ toString (p.1 + 1) ++ " 張標籤\n").data <:+:
          ("# 第 " ++ toString (p.1 + 1) ++ " 張標籤\n" ++ renderBlock p.2
            ++ "\n\n").data :=
        infix_left2 _ (renderBlock p.2) "\n\n"
      exact (infix_strConcat _ hmem h1).trans (infix_right _ _)
    · have h1 : (renderBlock p.2).data <:+:
          ("# 第 " ++ toString (p.1 + 1) ++ " 張標籤\n" ++ renderBlock p.2
            ++ "\n\n").data :=
        infix_mid _ _ "\n\n"
      exact (infix_strConcat _ hmem h1).trans (infix_right _ _)

def penvX : PrintEnv := ⟨false, true, "2025-08-22 09:00:00"⟩

theorem transport_failure_recovery_witness :
    penvX.sendOk = false ∧
    (generate_and_print_labels envCx (generateFixedGraphics envCx) penvX
      envPdfNone entryW (some 2) false "zpl").1 =
      (some 2 : Option Nat).getD entryW.quantity :=
  ⟨rfl, (transport_failure_recovery envCx (generateFixedGraphics envCx) penvX
    envPdfNone entryW (some 2) false rfl rfl).1⟩
